import Mathlib

/-!
Verification of the LACT (Lease Automatic Custody Transfer) PLC control core.

This development is a shallow embedding of the Python control core into Lean:
the tag data store (`plc/core/data_store.py`), the operational state machine
(`plc/core/state_machine.py`), the safety evaluator (`plc/core/safety.py`,
`plc/config/alarms.py`), the process modules (`plc/modules/*.py`) and the
scan-cycle orchestration of `PLCController._execute_scan`
(`plc/core/controller.py`).

Modelling conventions:
* Python floats are modelled as rationals (`ℚ`); `round(x, n)` is modelled as
  round-half-to-even on rationals (`rnd`), matching Python's rounding rule.
* The dynamically typed tag cell is the variant type `Value`; reading a
  missing tag yields the `Value.null` sentinel (Python `None`).  Python
  truthiness (`if ds.read(...)`) is `Value.truthy`; use of a tag in numeric
  position is `Value.toQ` (theorems carry typing hypotheses wherever a
  non-numeric value would have raised in Python).
* All `time.time()` calls inside one scan cycle are modelled by a single
  instant `now : ℚ` passed to the cycle.
* `math.exp` is not representable computably; functions that use it are
  parametrised by an arbitrary `expFn : ℚ → ℚ` standing for it.  Every
  property proved about them holds for the real exponential as a special
  case.
-/

namespace LACT

/-- Scalar value held by one tag of the data store (Python any-typed cell);
`null` is the Python `None` sentinel returned when a tag does not exist. -/
inductive Value where
  | null
  | vb (b : Bool)
  | vi (n : Int)
  | vf (q : ℚ)
  | vs (s : String)
deriving DecidableEq, Repr

/-- Python truthiness of a tag value, as used by `if ds.read(tag):`. -/
def Value.truthy : Value → Bool
  | .null => false
  | .vb b => b
  | .vi n => decide (n ≠ 0)
  | .vf q => decide (q ≠ 0)
  | .vs s => decide (s ≠ "")

/-- Numeric content of a tag value (Python numeric context; booleans count
as 0/1).  A `null` or string operand would raise `TypeError` in Python; the
theorems that depend on a numeric read carry a typing hypothesis, so the
junk value 0 returned here is never relied upon. -/
def Value.toQ : Value → ℚ
  | .vb b => if b then 1 else 0
  | .vi n => (n : ℚ)
  | .vf q => q
  | _ => 0

/-- One entry of the tag database: value, last-update timestamp and quality
string, mirroring `TagValue` of `plc/core/data_store.py`. -/
structure TagEntry where
  val : Value
  ts : ℚ
  quality : String
deriving DecidableEq, Repr

/-- The tag store: tag name to entry; `Option.none` for unregistered tags. -/
def Store := String → Option TagEntry

/-- Read a tag's value (`DataStore.read`): missing tags give the sentinel. -/
def dsRead (st : Store) (tag : String) : Value :=
  match st tag with
  | some e => e.val
  | Option.none => Value.null

/-- Write a tag with explicit quality (`DataStore.write`): value, timestamp
and quality are updated together; a write to a new name creates it. -/
def dsWriteQ (st : Store) (tag : String) (v : Value) (now : ℚ) (q : String) :
    Store :=
  fun t => if t = tag then some ⟨v, now, q⟩ else st t

/-- Write a tag with the default GOOD quality. -/
def dsWrite (st : Store) (tag : String) (v : Value) (now : ℚ) : Store :=
  dsWriteQ st tag v now "GOOD"

theorem dsRead_dsWriteQ (st : Store) (tag t : String) (v : Value) (now : ℚ)
    (q : String) :
    dsRead (dsWriteQ st tag v now q) t = if t = tag then v else dsRead st t := by
  unfold dsRead dsWriteQ
  by_cases h : t = tag <;> simp [h]

theorem dsRead_dsWrite (st : Store) (tag t : String) (v : Value) (now : ℚ) :
    dsRead (dsWrite st tag v now) t = if t = tag then v else dsRead st t := by
  unfold dsWrite; exact dsRead_dsWriteQ ..

/-- Round a rational to the nearest integer, ties to even — the rounding rule
of Python's built-in `round`. -/
def rndInt (x : ℚ) : ℤ :=
  if x - (⌊x⌋ : ℚ) < 1/2 then ⌊x⌋
  else if 1/2 < x - (⌊x⌋ : ℚ) then ⌊x⌋ + 1
  else if ⌊x⌋ % 2 = 0 then ⌊x⌋ else ⌊x⌋ + 1

/-- Model of Python `round(x, n)` on rationals. -/
def rnd (n : ℕ) (x : ℚ) : ℚ := (rndInt (x * 10 ^ n) : ℚ) / 10 ^ n

theorem rndInt_le (x : ℚ) : (rndInt x : ℚ) ≤ x + 1/2 := by
  unfold rndInt
  have hfl : (⌊x⌋ : ℚ) ≤ x := Int.floor_le x
  split
  · linarith
  · split
    · rename_i h1 h2
      push_neg at h1
      push_cast
      linarith
  -- the tie case: x - ⌊x⌋ = 1/2 exactly
    · rename_i h1 h2
      push_neg at h1 h2
      have : x - (⌊x⌋ : ℚ) = 1/2 := le_antisymm h2 h1
      split
      · linarith
      · push_cast
        linarith

theorem le_rndInt (x : ℚ) : x - 1/2 ≤ (rndInt x : ℚ) := by
  unfold rndInt
  have hfl : x < (⌊x⌋ : ℚ) + 1 := Int.lt_floor_add_one x
  split
  · rename_i h1
    linarith
  · split
    · rename_i h1 h2
      push_cast
      linarith
    · rename_i h1 h2
      push_neg at h1 h2
      have : x - (⌊x⌋ : ℚ) = 1/2 := le_antisymm h2 h1
      split
      · linarith
      · push_cast
        linarith

theorem rndInt_mono {x y : ℚ} (h : x ≤ y) : rndInt x ≤ rndInt y := by
  by_contra hc
  push_neg at hc
  have h1 : (rndInt y : ℚ) + 1 ≤ (rndInt x : ℚ) := by exact_mod_cast hc
  have h2 : (rndInt x : ℚ) ≤ x + 1/2 := rndInt_le x
  have h3 : y - 1/2 ≤ (rndInt y : ℚ) := le_rndInt y
  -- forces x = y and rndInt x = x + 1/2, rndInt y = y - 1/2
  have hxy : x = y := le_antisymm h (by linarith)
  subst hxy
  omega

theorem rnd_mono (n : ℕ) {x y : ℚ} (h : x ≤ y) : rnd n x ≤ rnd n y := by
  unfold rnd
  have hp : (0:ℚ) < 10 ^ n := by positivity
  have hm : x * 10 ^ n ≤ y * 10 ^ n := by
    exact mul_le_mul_of_nonneg_right h (le_of_lt hp)
  have h2 := rndInt_mono hm
  have h3 : (rndInt (x * 10 ^ n) : ℚ) ≤ (rndInt (y * 10 ^ n) : ℚ) := by
    exact_mod_cast h2
  exact div_le_div_of_nonneg_right h3 hp.le

/-- Process setpoints with their defaults (`plc/config/setpoints.py`); only
the fields consumed by the control core are carried. -/
structure Setpoints where
  bsw_divert_pct : ℚ
  bsw_alarm_pct : ℚ
  bsw_sample_delay_sec : ℚ
  bsw_divert_delay_sec : ℚ
  meter_k_factor : ℚ
  meter_min_flow_bph : ℚ
  meter_max_flow_bph : ℚ
  meter_no_flow_timeout_sec : ℚ
  temp_base_deg_f : ℚ
  temp_lo_alarm_f : ℚ
  temp_hi_alarm_f : ℚ
  temp_max_delta_f : ℚ
  inlet_press_lo_psi : ℚ
  inlet_press_hi_psi : ℚ
  loop_press_hi_psi : ℚ
  outlet_press_lo_psi : ℚ
  backpressure_sales_psi : ℚ
  backpressure_divert_psi : ℚ
  strainer_dp_hi_psi : ℚ
  pump_start_delay_sec : ℚ
  pump_stop_delay_sec : ℚ
  pump_restart_lockout_sec : ℚ
  pump_max_starts_per_hour : ℕ
  sample_rate_sec : ℚ
  sample_volume_ml : ℚ
  sample_mix_time_sec : ℚ
  prove_num_runs : ℕ
  prove_repeatability_pct : ℚ
  prove_meter_factor_min : ℚ
  prove_meter_factor_max : ℚ
  divert_travel_timeout_sec : ℚ
  scan_rate_ms : ℚ

/-- Default setpoint values of the `Setpoints` dataclass. -/
def defaultSetpoints : Setpoints where
  bsw_divert_pct := 1
  bsw_alarm_pct := 1/2
  bsw_sample_delay_sec := 5
  bsw_divert_delay_sec := 3
  meter_k_factor := 100
  meter_min_flow_bph := 30
  meter_max_flow_bph := 750
  meter_no_flow_timeout_sec := 60
  temp_base_deg_f := 60
  temp_lo_alarm_f := 20
  temp_hi_alarm_f := 150
  temp_max_delta_f := 2
  inlet_press_lo_psi := 5
  inlet_press_hi_psi := 250
  loop_press_hi_psi := 250
  outlet_press_lo_psi := 5
  backpressure_sales_psi := 50
  backpressure_divert_psi := 50
  strainer_dp_hi_psi := 15
  pump_start_delay_sec := 5
  pump_stop_delay_sec := 3
  pump_restart_lockout_sec := 30
  pump_max_starts_per_hour := 6
  sample_rate_sec := 15
  sample_volume_ml := 5
  sample_mix_time_sec := 30
  prove_num_runs := 5
  prove_repeatability_pct := 1/20
  prove_meter_factor_min := 49/50
  prove_meter_factor_max := 51/50
  divert_travel_timeout_sec := 15
  scan_rate_ms := 100

/-- The seven operational states of `LACTStateMachine`. -/
inductive LACTState where
  | IDLE
  | STARTUP
  | RUNNING
  | DIVERT
  | PROVING
  | SHUTDOWN
  | E_STOP
deriving DecidableEq, Repr

/-- The string value of a state, as written to the LACT_STATE tag. -/
def stateName : LACTState → String
  | .IDLE => "IDLE"
  | .STARTUP => "STARTUP"
  | .RUNNING => "RUNNING"
  | .DIVERT => "DIVERT"
  | .PROVING => "PROVING"
  | .SHUTDOWN => "SHUTDOWN"
  | .E_STOP => "E_STOP"

/-- The permitted-transition table `_TRANSITIONS` of
`plc/core/state_machine.py`. -/
def transitionsFrom : LACTState → List LACTState
  | .IDLE => [.STARTUP, .E_STOP]
  | .STARTUP => [.RUNNING, .IDLE, .E_STOP]
  | .RUNNING => [.DIVERT, .PROVING, .SHUTDOWN, .E_STOP]
  | .DIVERT => [.RUNNING, .SHUTDOWN, .E_STOP]
  | .PROVING => [.RUNNING, .SHUTDOWN, .E_STOP]
  | .SHUTDOWN => [.IDLE, .E_STOP]
  | .E_STOP => [.IDLE]

/-- Mutable state of `LACTStateMachine`. -/
structure SMState where
  state : LACTState
  entryTime : ℚ
  startupStep : ℕ
  shutdownStep : ℕ
  request : Option LACTState
deriving DecidableEq, Repr

/-- Embedding of `LACTStateMachine._transition`: validates the target against
the transition table; on success records PREV_STATE / LACT_STATE and resets
the sub-step counters; on failure leaves everything unchanged.  The third
component is the returned success flag. -/
def smTransition (now : ℚ) (m : SMState) (st : Store) (target : LACTState) :
    SMState × Store × Bool :=
  if target ∈ transitionsFrom m.state then
    let st1 := dsWrite st "PREV_STATE" (.vs (stateName m.state)) now
    let st2 := dsWrite st1 "LACT_STATE" (.vs (stateName target)) now
    ({ m with state := target, entryTime := now,
              startupStep := 0, shutdownStep := 0 }, st2, true)
  else (m, st, false)

/-- Embedding of `_handle_idle`. -/
def handleIdle (now : ℚ) (m : SMState) (st : Store) : SMState × Store :=
  let st := dsWrite st "DO_PUMP_START" (.vb false) now
  let st := dsWrite st "DO_SAMPLE_SOL" (.vb false) now
  let st := dsWrite st "DO_SAMPLE_MIX_PUMP" (.vb false) now
  let st := dsWrite st "DO_STATUS_GREEN" (.vb false) now
  (m, st)

/-- Embedding of `_handle_startup` (sequenced by `_startup_step`). -/
def handleStartup (sp : Setpoints) (now : ℚ) (m : SMState) (st : Store) :
    SMState × Store :=
  if m.startupStep = 0 then
    if ¬(dsRead st "DI_INLET_VLV_OPEN").truthy ∨
        ¬(dsRead st "DI_OUTLET_VLV_OPEN").truthy then
      let r := smTransition now m st .IDLE
      (r.1, r.2.1)
    else ({ m with startupStep := 1 }, st)
  else if m.startupStep = 1 then
    ({ m with startupStep := 2 }, dsWrite st "DO_DIVERT_CMD" (.vb true) now)
  else if m.startupStep = 2 then
    if (dsRead st "DI_DIVERT_DIVERT").truthy then
      ({ m with startupStep := 3 }, st)
    else if now - m.entryTime > sp.divert_travel_timeout_sec then
      let r := smTransition now m st .IDLE
      (r.1, r.2.1)
    else (m, st)
  else if m.startupStep = 3 then
    if now - m.entryTime > sp.pump_start_delay_sec then
      ({ m with startupStep := 4 }, dsWrite st "DO_PUMP_START" (.vb true) now)
    else (m, st)
  else if m.startupStep = 4 then
    if (dsRead st "DI_PUMP_RUNNING").truthy then
      ({ m with startupStep := 5 }, st)
    else if now - m.entryTime > sp.pump_start_delay_sec + 10 then
      let st1 := dsWrite st "DO_PUMP_START" (.vb false) now
      let r := smTransition now m st1 .IDLE
      (r.1, r.2.1)
    else (m, st)
  else if m.startupStep = 5 then
    if now - m.entryTime >
        sp.pump_start_delay_sec + sp.bsw_sample_delay_sec + 10 then
      if (dsRead st "AI_BSW_PROBE").toQ < sp.bsw_divert_pct then
        let st1 := dsWrite st "DO_DIVERT_CMD" (.vb false) now
        let st2 := dsWrite st1 "DO_STATUS_GREEN" (.vb true) now
        let st3 := dsWrite st2 "BATCH_START_TIME" (.vf now) now
        let r := smTransition now m st3 .RUNNING
        (r.1, r.2.1)
      else
        let r := smTransition now m st .DIVERT
        (r.1, r.2.1)
    else (m, st)
  else (m, st)

/-- Embedding of `_handle_running`. -/
def handleRunning (now : ℚ) (m : SMState) (st : Store) : SMState × Store :=
  let st := dsWrite st "DO_STATUS_GREEN" (.vb true) now
  let batchStart := dsRead st "BATCH_START_TIME"
  let st :=
    if batchStart.truthy then
      dsWrite st "BATCH_ELAPSED_SEC" (.vf (now - batchStart.toQ)) now
    else st
  (m, st)

/-- Embedding of `_handle_divert`: the exit check compares BS&W against the
divert threshold and the time since *entering* the state against the
debounce delay. -/
def handleDivert (sp : Setpoints) (now : ℚ) (m : SMState) (st : Store) :
    SMState × Store :=
  let st := dsWrite st "DO_DIVERT_CMD" (.vb true) now
  let st := dsWrite st "DO_STATUS_GREEN" (.vb false) now
  if (dsRead st "AI_BSW_PROBE").toQ < sp.bsw_divert_pct then
    if now - m.entryTime > sp.bsw_divert_delay_sec then
      let st1 := dsWrite st "DO_DIVERT_CMD" (.vb false) now
      let r := smTransition now m st1 .RUNNING
      (r.1, r.2.1)
    else (m, st)
  else (m, st)

/-- Embedding of `_handle_proving`. -/
def handleProving (now : ℚ) (m : SMState) (st : Store) : SMState × Store :=
  (m, dsWrite st "DO_STATUS_GREEN" (.vb true) now)

/-- Embedding of `_handle_shutdown` (sequenced by `_shutdown_step`). -/
def handleShutdown (sp : Setpoints) (now : ℚ) (m : SMState) (st : Store) :
    SMState × Store :=
  if m.shutdownStep = 0 then
    let st := dsWrite st "DO_DIVERT_CMD" (.vb true) now
    let st := dsWrite st "DO_SAMPLE_SOL" (.vb false) now
    let st := dsWrite st "DO_SAMPLE_MIX_PUMP" (.vb false) now
    ({ m with shutdownStep := 1 }, st)
  else if m.shutdownStep = 1 then
    if now - m.entryTime > sp.pump_stop_delay_sec then
      ({ m with shutdownStep := 2 }, dsWrite st "DO_PUMP_START" (.vb false) now)
    else (m, st)
  else if m.shutdownStep = 2 then
    if ¬(dsRead st "DI_PUMP_RUNNING").truthy then
      let st1 := dsWrite st "DO_STATUS_GREEN" (.vb false) now
      let r := smTransition now m st1 .IDLE
      (r.1, r.2.1)
    else if now - m.entryTime > sp.pump_stop_delay_sec + 15 then
      let st1 := dsWrite st "DO_STATUS_GREEN" (.vb false) now
      let r := smTransition now m st1 .IDLE
      (r.1, r.2.1)
    else (m, st)
  else (m, st)

/-- Embedding of `_handle_estop`: forces the safe output pattern, and
transitions to IDLE only after DI_ESTOP has been clear for the 2 s
debounce. -/
def handleEstop (now : ℚ) (m : SMState) (st : Store) : SMState × Store :=
  let st := dsWrite st "DO_PUMP_START" (.vb false) now
  let st := dsWrite st "DO_DIVERT_CMD" (.vb true) now
  let st := dsWrite st "DO_SAMPLE_SOL" (.vb false) now
  let st := dsWrite st "DO_SAMPLE_MIX_PUMP" (.vb false) now
  let st := dsWrite st "DO_PROVER_VLV_CMD" (.vb false) now
  let st := dsWrite st "DO_STATUS_GREEN" (.vb false) now
  let st := dsWrite st "DO_ALARM_BEACON" (.vb true) now
  let st := dsWrite st "DO_ALARM_HORN" (.vb true) now
  if ¬(dsRead st "DI_ESTOP").truthy then
    if now - m.entryTime > 2 then
      let r := smTransition now m st .IDLE
      (r.1, r.2.1)
    else (m, st)
  else (m, st)

/-- Pending-request phase of `LACTStateMachine.execute`: consume and apply
the operator-requested transition, if any; the flag is `_transition`'s
return value. -/
def smReqPhase (now : ℚ) (m : SMState) (st : Store) : SMState × Store × Bool :=
  match m.request with
  | Option.none => (m, st, false)
  | some tgt =>
    let r := smTransition now m st tgt
    ({ r.1 with request := Option.none }, r.2.1, r.2.2)

/-- E-Stop override phase of `LACTStateMachine.execute`: if DI_ESTOP reads
truthy and the machine is not already in E_STOP, force a transition to
E_STOP (overwriting the `transitioned` flag, as the Python assignment
does). -/
def smEstopPhase (now : ℚ) (p : SMState × Store × Bool) :
    SMState × Store × Bool :=
  if (dsRead p.2.1 "DI_ESTOP").truthy = true ∧ p.1.state ≠ LACTState.E_STOP
  then smTransition now p.1 p.2.1 LACTState.E_STOP
  else p

/-- Handler dispatch table of `LACTStateMachine.execute`. -/
def smDispatch (sp : Setpoints) (now : ℚ) (m : SMState) (st : Store) :
    SMState × Store :=
  match m.state with
  | .IDLE => handleIdle now m st
  | .STARTUP => handleStartup sp now m st
  | .RUNNING => handleRunning now m st
  | .DIVERT => handleDivert sp now m st
  | .PROVING => handleProving now m st
  | .SHUTDOWN => handleShutdown sp now m st
  | .E_STOP => handleEstop now m st

/-- Embedding of `LACTStateMachine.execute`: apply the pending request, then
the DI_ESTOP override; if a transition fired this scan the state handler is
skipped, otherwise dispatch to the current state's handler. -/
def smExecute (sp : Setpoints) (now : ℚ) (m : SMState) (st : Store) :
    SMState × Store :=
  let p2 := smEstopPhase now (smReqPhase now m st)
  if p2.2.2 then (p2.1, p2.2.1)
  else smDispatch sp now p2.1 p2.2.1

/-- An external event acting on the state machine: an operator
`request_transition` call, or one `execute` scan against an ambient store
and clock value (which carries the DI_ESTOP reading of that scan). -/
inductive SMEvent where
  | req (t : LACTState)
  | cyc (st : Store) (now : ℚ)

/-- Apply one event to the machine. -/
def smStep (sp : Setpoints) (m : SMState) : SMEvent → SMState
  | .req t => { m with request := some t }
  | .cyc st now => (smExecute sp now m st).1

/-- The trajectory of machine configurations along a list of events. -/
def smRun (sp : Setpoints) (m : SMState) : List SMEvent → List SMState
  | [] => [m]
  | e :: es => m :: smRun sp (smStep sp m e) es

theorem smTransition_illegal (now : ℚ) (m : SMState) (st : Store)
    (t : LACTState) (h : t ∉ transitionsFrom m.state) :
    smTransition now m st t = (m, st, false) := by
  unfold smTransition
  simp [h]

theorem smTransition_fail (now : ℚ) (m : SMState) (st : Store)
    (t : LACTState) (h : (smTransition now m st t).2.2 = false) :
    smTransition now m st t = (m, st, false) := by
  by_cases hm : t ∈ transitionsFrom m.state
  · unfold smTransition at h ⊢
    simp [hm] at h
  · exact smTransition_illegal now m st t hm

theorem smTransition_fst_state (now : ℚ) (m : SMState) (st : Store)
    (t : LACTState) :
    (smTransition now m st t).1.state = m.state ∨
      (smTransition now m st t).1.state ∈ transitionsFrom m.state := by
  unfold smTransition
  split
  · rename_i h
    right
    simpa using h
  · left
    rfl

theorem smTransition_mem (now : ℚ) (m : SMState) (st : Store)
    (t : LACTState) (h : t ∈ transitionsFrom m.state) :
    (smTransition now m st t).1.state = t ∧
      (smTransition now m st t).2.2 = true := by
  unfold smTransition
  simp [h]

/-- E_STOP is reachable from every state except E_STOP itself. -/
theorem estop_mem_transitions (s : LACTState) (h : s ≠ LACTState.E_STOP) :
    LACTState.E_STOP ∈ transitionsFrom s := by
  cases s <;> simp_all [transitionsFrom]

theorem handleIdle_state (now : ℚ) (m : SMState) (st : Store) :
    (handleIdle now m st).1.state = m.state := rfl

theorem handleStartup_state (sp : Setpoints) (now : ℚ) (m : SMState)
    (st : Store) :
    (handleStartup sp now m st).1.state = m.state ∨
      (handleStartup sp now m st).1.state ∈ transitionsFrom m.state := by
  unfold handleStartup
  dsimp only
  repeat' split
  all_goals first
    | (left; rfl)
    | (exact smTransition_fst_state ..)

theorem handleRunning_state (now : ℚ) (m : SMState) (st : Store) :
    (handleRunning now m st).1.state = m.state := rfl

theorem handleDivert_state (sp : Setpoints) (now : ℚ) (m : SMState)
    (st : Store) :
    (handleDivert sp now m st).1.state = m.state ∨
      (handleDivert sp now m st).1.state ∈ transitionsFrom m.state := by
  unfold handleDivert
  dsimp only
  repeat' split
  all_goals first
    | (left; rfl)
    | (exact smTransition_fst_state ..)

theorem handleProving_state (now : ℚ) (m : SMState) (st : Store) :
    (handleProving now m st).1.state = m.state := rfl

theorem handleShutdown_state (sp : Setpoints) (now : ℚ) (m : SMState)
    (st : Store) :
    (handleShutdown sp now m st).1.state = m.state ∨
      (handleShutdown sp now m st).1.state ∈ transitionsFrom m.state := by
  unfold handleShutdown
  dsimp only
  repeat' split
  all_goals first
    | (left; rfl)
    | (exact smTransition_fst_state ..)

theorem handleEstop_state (now : ℚ) (m : SMState) (st : Store) :
    (handleEstop now m st).1.state = m.state ∨
      (handleEstop now m st).1.state ∈ transitionsFrom m.state := by
  unfold handleEstop
  dsimp only
  repeat' split
  all_goals first
    | (left; rfl)
    | (exact smTransition_fst_state ..)

theorem smDispatch_state (sp : Setpoints) (now : ℚ) (m : SMState)
    (st : Store) :
    (smDispatch sp now m st).1.state = m.state ∨
      (smDispatch sp now m st).1.state ∈ transitionsFrom m.state := by
  obtain ⟨s, et, ss, ds, rq⟩ := m
  cases s
  case IDLE => left; exact handleIdle_state ..
  case STARTUP => exact handleStartup_state ..
  case RUNNING => left; exact handleRunning_state ..
  case DIVERT => exact handleDivert_state ..
  case PROVING => left; exact handleProving_state ..
  case SHUTDOWN => exact handleShutdown_state ..
  case E_STOP => exact handleEstop_state ..

theorem smReqPhase_spec (now : ℚ) (m : SMState) (st : Store) :
    ((smReqPhase now m st).2.2 = false ∧
       (smReqPhase now m st).1.state = m.state ∧
       (smReqPhase now m st).2.1 = st) ∨
      ((smReqPhase now m st).2.2 = true ∧
       (smReqPhase now m st).1.state ∈ transitionsFrom m.state) := by
  unfold smReqPhase
  cases hr : m.request with
  | none => simp
  | some tgt =>
    dsimp only
    by_cases hm : tgt ∈ transitionsFrom m.state
    · right
      have h := smTransition_mem now m st tgt hm
      simp only [h.1, h.2, hm]
      exact ⟨trivial, trivial⟩
    · left
      rw [smTransition_illegal now m st tgt hm]
      simp

theorem smEstopPhase_spec (now : ℚ) (p : SMState × Store × Bool) :
    smEstopPhase now p = p ∨
      ((smEstopPhase now p).2.2 = true ∧
       (smEstopPhase now p).1.state = LACTState.E_STOP ∧
       LACTState.E_STOP ∈ transitionsFrom p.1.state) := by
  unfold smEstopPhase
  split
  · rename_i h
    right
    have hmem := estop_mem_transitions p.1.state h.2
    have := smTransition_mem now p.1 p.2.1 LACTState.E_STOP hmem
    exact ⟨this.2, this.1, hmem⟩
  · left
    rfl

theorem smExecute_eq (sp : Setpoints) (now : ℚ) (m : SMState) (st : Store) :
    smExecute sp now m st =
      if (smEstopPhase now (smReqPhase now m st)).2.2 = true then
        ((smEstopPhase now (smReqPhase now m st)).1,
         (smEstopPhase now (smReqPhase now m st)).2.1)
      else
        smDispatch sp now (smEstopPhase now (smReqPhase now m st)).1
          (smEstopPhase now (smReqPhase now m st)).2.1 := rfl

/-- Single-scan legality: one `execute` call either leaves the state alone
or moves it to a state permitted by the transition table. -/
theorem smExecute_legal (sp : Setpoints) (now : ℚ) (m : SMState)
    (st : Store) :
    (smExecute sp now m st).1.state = m.state ∨
      (smExecute sp now m st).1.state ∈ transitionsFrom m.state := by
  rw [smExecute_eq]
  by_cases hb : (smEstopPhase now (smReqPhase now m st)).2.2 = true
  · rw [if_pos hb]
    rcases smEstopPhase_spec now (smReqPhase now m st) with he | he
    · rw [he] at hb ⊢
      rcases smReqPhase_spec now m st with ⟨hf, _, _⟩ | ⟨_, hs⟩
      · rw [hf] at hb
        exact absurd hb (by simp)
      · right
        exact hs
    · by_cases hm : m.state = LACTState.E_STOP
      · left
        rw [he.2.1, hm]
      · right
        rw [he.2.1]
        exact estop_mem_transitions m.state hm
  · rw [if_neg hb]
    rcases smEstopPhase_spec now (smReqPhase now m st) with he | he
    · rw [he] at hb ⊢
      rcases smReqPhase_spec now m st with ⟨hf, hs, _⟩ | ⟨hf, _⟩
      · rcases smDispatch_state sp now (smReqPhase now m st).1
            (smReqPhase now m st).2.1 with h | h
        · left
          rw [h, hs]
        · right
          rw [hs] at h
          exact h
      · exact absurd hf hb
    · exact absurd he.1 hb

theorem smRun_cons_form (sp : Setpoints) (m : SMState) (evs : List SMEvent) :
    ∃ l, smRun sp m evs = m :: l := by
  cases evs <;> simp [smRun]

theorem smStep_legal (sp : Setpoints) (m : SMState) (e : SMEvent) :
    (smStep sp m e).state = m.state ∨
      (smStep sp m e).state ∈ transitionsFrom m.state := by
  cases e with
  | req t => left; rfl
  | cyc st now => exact smExecute_legal sp now m st

/-- C2.  Legal-transition invariant.  First conjunct: along any interleaving
of `request_transition` calls and `execute` scans (each scan seeing an
arbitrary store, hence arbitrary DI_ESTOP values), every change of the
current state respects the `_TRANSITIONS` table.  Second conjunct: a
`_transition` call with an illegal target returns `False` and leaves the
machine and the store unchanged. -/
theorem C2_transitions_always_legal (sp : Setpoints) (m0 : SMState)
    (evs : List SMEvent) :
    List.Chain'
      (fun a b => b.state = a.state ∨ b.state ∈ transitionsFrom a.state)
      (smRun sp m0 evs) ∧
    ∀ (now : ℚ) (m : SMState) (st : Store) (t : LACTState),
      t ∉ transitionsFrom m.state → smTransition now m st t = (m, st, false) := by
  constructor
  · induction evs generalizing m0 with
    | nil => simp [smRun]
    | cons e es ih =>
      rw [smRun]
      rcases smRun_cons_form sp (smStep sp m0 e) es with ⟨l, hl⟩
      rw [hl]
      refine List.Chain'.cons ?_ ?_
      · exact smStep_legal sp m0 e
      · rw [← hl]
        exact ih (smStep sp m0 e)
  · exact fun now m st t h => smTransition_illegal now m st t h

/-- Idle machine configuration used for concrete instantiations. -/
def mIdle : SMState where
  state := LACTState.IDLE
  entryTime := 0
  startupStep := 0
  shutdownStep := 0
  request := Option.none

/-- Store with no registered tags (every read yields the null sentinel). -/
def store0 : Store := fun _ => Option.none

/-- Witness for C2 at concrete inputs: RUNNING is not reachable from IDLE,
and the illegal request leaves machine and store untouched. -/
theorem C2_transitions_always_legal_witness :
    smTransition 0 mIdle store0 LACTState.RUNNING = (mIdle, store0, false) :=
  (C2_transitions_always_legal defaultSetpoints mIdle []).2 0 mIdle store0
    LACTState.RUNNING (by decide)

/-- Machine configuration sitting in DIVERT since time 0, no pending
request. -/
def mDivert : SMState where
  state := LACTState.DIVERT
  entryTime := 0
  startupStep := 0
  shutdownStep := 0
  request := Option.none

/-- Store whose only registered tag is the BS&W probe reading. -/
def bswStore (q : ℚ) : Store :=
  fun t => if t = "AI_BSW_PROBE" then some ⟨Value.vf q, 0, "GOOD"⟩
           else Option.none

theorem divert_reduce (sp : Setpoints) (now : ℚ) (m : SMState) (st : Store)
    (hstate : m.state = LACTState.DIVERT)
    (hreq : m.request = Option.none)
    (hestop : (dsRead st "DI_ESTOP").truthy = false) :
    smExecute sp now m st = handleDivert sp now m st := by
  have h1 : smReqPhase now m st = (m, st, false) := by
    unfold smReqPhase
    rw [hreq]
  have h2 : smEstopPhase now (m, st, false) = (m, st, false) := by
    unfold smEstopPhase
    dsimp only
    rw [hestop]
    simp
  rw [smExecute_eq, h1, h2]
  simp [smDispatch, hstate]

/-- Helper: complete characterisation of one DIVERT-state scan of the state
machine (no pending request, DI_ESTOP clear): the machine exits to RUNNING
iff BS&W is below the threshold AND the time since entering DIVERT exceeds
the delay; on exit DO_DIVERT_CMD is written false; otherwise the machine
configuration is returned unchanged with DO_DIVERT_CMD asserted. -/
theorem divert_exit_spec (sp : Setpoints) (now : ℚ)
    (m : SMState) (st : Store) (q : ℚ)
    (hstate : m.state = LACTState.DIVERT)
    (hreq : m.request = Option.none)
    (hestop : (dsRead st "DI_ESTOP").truthy = false)
    (hbsw : dsRead st "AI_BSW_PROBE" = Value.vf q) :
    ((smExecute sp now m st).1.state = LACTState.RUNNING ↔
      (q < sp.bsw_divert_pct ∧ now - m.entryTime > sp.bsw_divert_delay_sec)) ∧
    (q < sp.bsw_divert_pct ∧ now - m.entryTime > sp.bsw_divert_delay_sec →
      dsRead (smExecute sp now m st).2 "DO_DIVERT_CMD" = Value.vb false) ∧
    (¬(q < sp.bsw_divert_pct ∧ now - m.entryTime > sp.bsw_divert_delay_sec) →
      (smExecute sp now m st).1 = m ∧
      dsRead (smExecute sp now m st).2 "DO_DIVERT_CMD" = Value.vb true) := by
  rw [divert_reduce sp now m st hstate hreq hestop]
  unfold handleDivert
  dsimp only
  have hread : dsRead
      (dsWrite (dsWrite st "DO_DIVERT_CMD" (Value.vb true) now)
        "DO_STATUS_GREEN" (Value.vb false) now) "AI_BSW_PROBE" =
      Value.vf q := by
    rw [dsRead_dsWrite, dsRead_dsWrite]
    simp [hbsw]
  rw [hread]
  by_cases hq : q < sp.bsw_divert_pct
  · by_cases ht : now - m.entryTime > sp.bsw_divert_delay_sec
    · rw [if_pos (by simpa using hq), if_pos ht]
      have hmem : LACTState.RUNNING ∈ transitionsFrom m.state := by
        rw [hstate]; decide
      unfold smTransition
      rw [if_pos hmem]
      refine ⟨by simp [hq, ht], fun _ => ?_, fun hn => absurd ⟨hq, ht⟩ hn⟩
      dsimp only
      rw [dsRead_dsWrite, dsRead_dsWrite, dsRead_dsWrite]
      simp
    · rw [if_pos (by simpa using hq), if_neg ht]
      refine ⟨?_, fun hc => absurd hc.2 ht, fun _ => ⟨rfl, ?_⟩⟩
      · dsimp only
        rw [hstate]
        simp [ht]
      · dsimp only
        rw [dsRead_dsWrite, dsRead_dsWrite]
        simp
  · rw [if_neg (by simpa using hq)]
    refine ⟨?_, fun hc => absurd hc.1 hq, fun _ => ⟨rfl, ?_⟩⟩
    · dsimp only
      rw [hstate]
      simp [hq]
    · dsimp only
      rw [dsRead_dsWrite, dsRead_dsWrite]
      simp

/-- C3 counterexample.  With the default setpoints
(`bsw_divert_delay_sec = 3`), a machine that entered DIVERT at time 0 and
saw BS&W = 5 % (at/above the 1 % divert threshold) as late as time 99
transitions back to RUNNING at time 100 — after the below-threshold
condition has held for at most one second, far less than the required
delay — because `_handle_divert` measures the delay from state entry, and
the high reading one cycle earlier did not restart any wait. -/
theorem C3_counterexample :
    (5 : ℚ) ≥ defaultSetpoints.bsw_divert_pct ∧
    (100 : ℚ) - 99 < defaultSetpoints.bsw_divert_delay_sec ∧
    (smExecute defaultSetpoints 99 mDivert (bswStore 5)).1.state =
      LACTState.DIVERT ∧
    (smExecute defaultSetpoints 100
        (smExecute defaultSetpoints 99 mDivert (bswStore 5)).1
        (bswStore 0)).1.state = LACTState.RUNNING ∧
    dsRead (smExecute defaultSetpoints 100
        (smExecute defaultSetpoints 99 mDivert (bswStore 5)).1
        (bswStore 0)).2 "DO_DIVERT_CMD" = Value.vb false := by
  have h99 := divert_exit_spec defaultSetpoints 99 mDivert (bswStore 5) 5
    rfl rfl rfl rfl
  have hstay := h99.2.2 (by norm_num [defaultSetpoints])
  refine ⟨by norm_num [defaultSetpoints], by norm_num [defaultSetpoints],
    ?_, ?_, ?_⟩
  · rw [hstay.1]
    rfl
  · rw [hstay.1]
    have h100 := divert_exit_spec defaultSetpoints 100 mDivert (bswStore 0) 0
      rfl rfl rfl rfl
    exact h100.1.mpr
      ⟨by norm_num [defaultSetpoints], by norm_num [mDivert, defaultSetpoints]⟩
  · rw [hstay.1]
    have h100 := divert_exit_spec defaultSetpoints 100 mDivert (bswStore 0) 0
      rfl rfl rfl rfl
    exact h100.2.1
      ⟨by norm_num [defaultSetpoints], by norm_num [mDivert, defaultSetpoints]⟩

/-- C3 amended.  While in DIVERT (with no pending operator request and
DI_ESTOP clear), the machine transitions back to RUNNING — writing
DO_DIVERT_CMD false — exactly on a scan where the BS&W reading is below
`bsw_divert_pct` AND the time since entering DIVERT exceeds
`bsw_divert_delay_sec`; the delay is measured from state entry, not from
when the reading fell below the threshold, so at/above-threshold readings
during the wait do not restart it.  Otherwise the machine stays in DIVERT
with the divert command asserted. -/
theorem C3_divert_exit_timed_from_entry (sp : Setpoints) (now : ℚ)
    (m : SMState) (st : Store) (q : ℚ)
    (hstate : m.state = LACTState.DIVERT)
    (hreq : m.request = Option.none)
    (hestop : (dsRead st "DI_ESTOP").truthy = false)
    (hbsw : dsRead st "AI_BSW_PROBE" = Value.vf q) :
    ((smExecute sp now m st).1.state = LACTState.RUNNING ↔
      (q < sp.bsw_divert_pct ∧ now - m.entryTime > sp.bsw_divert_delay_sec)) ∧
    (q < sp.bsw_divert_pct ∧ now - m.entryTime > sp.bsw_divert_delay_sec →
      dsRead (smExecute sp now m st).2 "DO_DIVERT_CMD" = Value.vb false) ∧
    (¬(q < sp.bsw_divert_pct ∧ now - m.entryTime > sp.bsw_divert_delay_sec) →
      (smExecute sp now m st).1 = m ∧
      dsRead (smExecute sp now m st).2 "DO_DIVERT_CMD" = Value.vb true) :=
  divert_exit_spec sp now m st q hstate hreq hestop hbsw

/-- Witness for the amended C3 at concrete inputs: defaults, BS&W 0 %,
100 s in state: the scan exits DIVERT back to RUNNING. -/
theorem C3_divert_exit_timed_from_entry_witness :
    (smExecute defaultSetpoints 100 mDivert (bswStore 0)).1.state =
      LACTState.RUNNING :=
  (C3_divert_exit_timed_from_entry defaultSetpoints 100 mDivert
      (bswStore 0) 0 rfl rfl rfl rfl).1.mpr
    ⟨by norm_num [defaultSetpoints], by norm_num [mDivert, defaultSetpoints]⟩

/-- Runtime state of a single alarm (`AlarmState` of `plc/config/alarms.py`,
minus the back-reference to its definition; the definition's `latching` flag
is passed to the operations that consult it). -/
structure AlarmSt where
  active : Bool
  acknowledged : Bool
  timestamp : ℚ
  value : ℚ
deriving DecidableEq, Repr

/-- Freshly constructed alarm state (dataclass defaults). -/
def alarmInit : AlarmSt where
  active := false
  acknowledged := false
  timestamp := 0
  value := 0

/-- Embedding of `AlarmState.activate`: a no-op if already active, else
sets active, clears acknowledged, captures timestamp and value. -/
def AlarmSt.activate (a : AlarmSt) (now v : ℚ) : AlarmSt :=
  if ¬a.active then
    { active := true, acknowledged := false, timestamp := now, value := v }
  else a

/-- Embedding of `AlarmState.deactivate`: drops active (and acknowledged)
only for non-latching or already-acknowledged alarms. -/
def AlarmSt.deactivate (latching : Bool) (a : AlarmSt) : AlarmSt :=
  if ¬latching ∨ a.acknowledged then
    { a with active := false, acknowledged := false }
  else a

/-- Embedding of `AlarmState.acknowledge`: sets acknowledged; for an
inactive or non-latching alarm also drops active. -/
def AlarmSt.acknowledge (latching : Bool) (a : AlarmSt) : AlarmSt :=
  if ¬a.active ∨ ¬latching then
    { a with acknowledged := true, active := false }
  else { a with acknowledged := true }

/-- One operation on a single alarm state. -/
inductive AlarmOp where
  | activate (now v : ℚ)
  | deactivate
  | acknowledge

/-- Apply one operation. -/
def alarmApply (latching : Bool) (a : AlarmSt) : AlarmOp → AlarmSt
  | .activate now v => a.activate now v
  | .deactivate => a.deactivate latching
  | .acknowledge => a.acknowledge latching

/-- Run a sequence of operations from a starting state. -/
def alarmRun (latching : Bool) (a : AlarmSt) : List AlarmOp → AlarmSt
  | [] => a
  | op :: ops => alarmRun latching (alarmApply latching a op) ops

/-- The predicate under which the safety manager reports an alarm as
unacknowledged (`SafetyManager.get_unacknowledged_alarms`): it must be
active AND not acknowledged. -/
def AlarmSt.unackReported (a : AlarmSt) : Bool := a.active && !a.acknowledged

/-- C8 counterexample.  The initial alarm state already has active = false
and acknowledged = false, violating the claimed invariant on the empty
operation sequence; and the state reached by activate–acknowledge–deactivate
(for a latching alarm) violates it again, because `deactivate` clears both
flags together. -/
theorem C8_counterexample :
    ((alarmRun true alarmInit []).active = false ∧
     (alarmRun true alarmInit []).acknowledged = false) ∧
    ((alarmRun true alarmInit
        [AlarmOp.activate 1 0, AlarmOp.acknowledge,
         AlarmOp.deactivate]).active = false ∧
     (alarmRun true alarmInit
        [AlarmOp.activate 1 0, AlarmOp.acknowledge,
         AlarmOp.deactivate]).acknowledged = false) := by
  refine ⟨⟨rfl, rfl⟩, ⟨rfl, rfl⟩⟩

/-- C8 amended.  `activate` always leaves the alarm active; `acknowledge`
always leaves it acknowledged (so inactive-after-acknowledge implies
acknowledged); `deactivate` clears active and acknowledged together (so
inactive-after-deactivate implies NOT acknowledged); consequently, in every
reachable state an alarm reported as unacknowledged by the safety queries
is active — but the raw flag pair (active = false, acknowledged = false)
does occur, initially and after any deactivation. -/
theorem C8_inactive_never_reported_unack (latching : Bool) (a : AlarmSt)
    (now v : ℚ) (ops : List AlarmOp) :
    ((a.activate now v).active = true) ∧
    ((AlarmSt.acknowledge latching a).acknowledged = true) ∧
    ((AlarmSt.deactivate latching a).active = false →
      (AlarmSt.deactivate latching a).acknowledged = false) ∧
    ((alarmRun latching a ops).unackReported = true →
      (alarmRun latching a ops).active = true) := by
  refine ⟨?_, ?_, ?_, ?_⟩
  · unfold AlarmSt.activate
    split <;> simp_all
  · unfold AlarmSt.acknowledge
    split <;> rfl
  · unfold AlarmSt.deactivate
    split
    · intro _; rfl
    · rename_i h
      push_neg at h
      intro hact
      rcases h with ⟨hl, hak⟩
      simp [hak]
  · intro h
    unfold AlarmSt.unackReported at h
    exact (Bool.and_eq_true _ _ |>.mp h).1

/-- Witness for C8 amended at concrete inputs: a latching alarm that was
activated and then deactivated without acknowledgement stays active; the
hypothesis-bearing conjuncts are discharged at the initial state. -/
theorem C8_inactive_never_reported_unack_witness :
    (AlarmSt.deactivate true alarmInit).acknowledged = false ∧
    (alarmRun true alarmInit [AlarmOp.activate 1 0]).active = true :=
  ⟨(C8_inactive_never_reported_unack true alarmInit 0 0 []).2.2.1 rfl,
   (C8_inactive_never_reported_unack true alarmInit 1 0
      [AlarmOp.activate 1 0]).2.2.2 rfl⟩

/-- Private state of `PumpControl` (`plc/modules/pump_control.py`):
the bounded start-time buffer (a `deque(maxlen=20)`, oldest first), the
last trip time and the lockout latch. -/
structure PumpState where
  startTimes : List ℚ
  lastTripTime : ℚ
  lockedOut : Bool
deriving DecidableEq, Repr

/-- Fresh pump supervisor state. -/
def pumpInit : PumpState where
  startTimes := []
  lastTripTime := 0
  lockedOut := false

/-- Append to a `deque(maxlen=20)`: the oldest entry is dropped once the
buffer holds 20 items. -/
def dequeAppend20 (l : List ℚ) (x : ℚ) : List ℚ :=
  let l2 := l ++ [x]
  l2.drop (l2.length - 20)

/-- Embedding of `PumpControl.record_start`: append the start time, count
the starts strictly inside the last rolling hour, and reject (latching the
lockout) when that count reaches `pump_max_starts_per_hour`. -/
def recordStart (sp : Setpoints) (now : ℚ) (p : PumpState) :
    Bool × PumpState :=
  let times := dequeAppend20 p.startTimes now
  let recent := (times.filter (fun t => now - 3600 < t)).length
  if recent ≥ sp.pump_max_starts_per_hour then
    (false, { p with startTimes := times, lockedOut := true })
  else
    (true, { p with startTimes := times })

/-- Fold `record_start` over a list of start times, collecting the returned
success flags. -/
def runStarts (sp : Setpoints) (p : PumpState) :
    List ℚ → List Bool × PumpState
  | [] => ([], p)
  | t :: ts =>
    let r := recordStart sp t p
    let rest := runStarts sp r.2 ts
    (r.1 :: rest.1, rest.2)

theorem dequeAppend20_small (l : List ℚ) (x : ℚ) (h : l.length + 1 ≤ 20) :
    dequeAppend20 l x = l ++ [x] := by
  unfold dequeAppend20
  dsimp only
  have h0 : (l ++ [x]).length - 20 = 0 := by simp; omega
  rw [h0, List.drop_zero]

theorem dequeAppend20_le20 (l : List ℚ) (x : ℚ) :
    (dequeAppend20 l x).length ≤ 20 := by
  unfold dequeAppend20
  simp
  omega

/-- For a limit larger than the 20-slot buffer, `record_start` can never
reject: the rolling count is capped at 20. -/
theorem recordStart_no_reject (sp : Setpoints) (h20 : 20 < sp.pump_max_starts_per_hour)
    (now : ℚ) (p : PumpState) :
    (recordStart sp now p).1 = true ∧
    (recordStart sp now p).2.lockedOut = p.lockedOut := by
  unfold recordStart
  dsimp only
  have hle : ((dequeAppend20 p.startTimes now).filter
      (fun t => decide (now - 3600 < t))).length ≤ 20 := by
    calc ((dequeAppend20 p.startTimes now).filter _).length
        ≤ (dequeAppend20 p.startTimes now).length := List.length_filter_le _ _
      _ ≤ 20 := dequeAppend20_le20 ..
  rw [if_neg (by omega)]
  exact ⟨rfl, rfl⟩

theorem runStarts_no_reject (sp : Setpoints)
    (h20 : 20 < sp.pump_max_starts_per_hour) (ts : List ℚ) (p : PumpState) :
    (runStarts sp p ts).1 = List.replicate ts.length true ∧
    (runStarts sp p ts).2.lockedOut = p.lockedOut := by
  induction ts generalizing p with
  | nil => exact ⟨rfl, rfl⟩
  | cons t ts ih =>
    have h := recordStart_no_reject sp h20 t p
    unfold runStarts
    dsimp only
    rw [h.1, (ih (recordStart sp t p).2).1, (ih (recordStart sp t p).2).2, h.2]
    exact ⟨rfl, rfl⟩

/-- C7 counterexample.  With `pump_max_starts_per_hour = 21` (one more than
the 20-slot event buffer) and twenty-one simultaneous starts, every call —
including the 21st, which the claim says must be the first rejection —
returns success, and the lockout is never latched: the buffer caps the
rolling count at 20. -/
theorem C7_counterexample :
    (runStarts { defaultSetpoints with pump_max_starts_per_hour := 21 }
        pumpInit (List.replicate 21 0)).1 = List.replicate 21 true ∧
    (runStarts { defaultSetpoints with pump_max_starts_per_hour := 21 }
        pumpInit (List.replicate 21 0)).2.lockedOut = false := by
  have h := runStarts_no_reject
    { defaultSetpoints with pump_max_starts_per_hour := 21 }
    (by norm_num) (List.replicate 21 0) pumpInit
  simpa using h

theorem runStarts_reject_aux (sp : Setpoints) (N : ℕ)
    (hsp : sp.pump_max_starts_per_hour = N) (h20 : N ≤ 20) :
    ∀ (ts done : List ℚ),
      done.length + ts.length = N →
      1 ≤ ts.length →
      (∀ x ∈ done ++ ts, ∀ y ∈ done ++ ts, x - y < 3600) →
      (runStarts sp ⟨done, 0, false⟩ ts).1 =
        List.replicate (ts.length - 1) true ++ [false] ∧
      (runStarts sp ⟨done, 0, false⟩ ts).2.lockedOut = true := by
  intro ts
  induction ts with
  | nil =>
    intro done hlen h1 hhr
    simp at h1
  | cons t ts ih =>
    intro done hlen _ hhr
    have hsmall : done.length + 1 ≤ 20 := by
      simp at hlen
      omega
    have hdeq : dequeAppend20 done t = done ++ [t] :=
      dequeAppend20_small done t hsmall
    have htmem : t ∈ done ++ t :: ts := by simp
    have hfilter : (done ++ [t]).filter (fun x => decide (t - 3600 < x)) =
        done ++ [t] := by
      rw [List.filter_eq_self]
      intro a ha
      have hamem : a ∈ done ++ t :: ts := by
        simp at ha ⊢
        tauto
      have := hhr t htmem a hamem
      simp
      linarith
    have hcount : ((dequeAppend20 done t).filter
        (fun x => decide (t - 3600 < x))).length = done.length + 1 := by
      rw [hdeq, hfilter]
      simp
    cases ts with
    | nil =>
      have hN : done.length + 1 = N := by simpa using hlen
      unfold runStarts recordStart
      dsimp only
      rw [hcount, hsp, if_pos (by omega)]
      unfold runStarts
      exact ⟨rfl, rfl⟩
    | cons u us =>
      have hlt : done.length + 1 < N := by
        simp at hlen
        omega
      unfold runStarts recordStart
      dsimp only
      rw [hcount, hsp, if_neg (by omega)]
      have hrec := ih (done ++ [t]) (by simp at hlen ⊢; omega) (by simp)
        (by
          intro x hx y hy
          refine hhr x ?_ y ?_ <;> simp at hx hy ⊢ <;> tauto)
      rw [hdeq]
      refine ⟨?_, hrec.2⟩
      rw [hrec.1]
      simp [List.replicate_succ]

/-- C7 amended.  For `pump_max_starts_per_hour = N` with `1 ≤ N ≤ 20` (the
capacity of the 20-slot event buffer; default N = 6), any N start calls
whose times all lie within one rolling hour see the first N−1 succeed and
the Nth rejected with the lockout latched.  (For N > 20 the buffer caps the
rolling count and no call is ever rejected — see the counterexample.) -/
theorem C7_nth_start_rejected (sp : Setpoints) (ts : List ℚ) (N : ℕ)
    (hsp : sp.pump_max_starts_per_hour = N)
    (h1 : 1 ≤ N) (h20 : N ≤ 20)
    (hlen : ts.length = N)
    (hhr : ∀ x ∈ ts, ∀ y ∈ ts, x - y < 3600) :
    (runStarts sp pumpInit ts).1 =
      List.replicate (N - 1) true ++ [false] ∧
    (runStarts sp pumpInit ts).2.lockedOut = true := by
  have h := runStarts_reject_aux sp N hsp h20 ts [] (by simpa using hlen)
    (by omega) (by simpa using hhr)
  rw [hlen] at h
  exact h

/-- Witness for C7 amended at the default limit N = 6: six simultaneous
starts yield five successes then one rejection with lockout. -/
theorem C7_nth_start_rejected_witness :
    (runStarts defaultSetpoints pumpInit (List.replicate 6 0)).1 =
      List.replicate 5 true ++ [false] ∧
    (runStarts defaultSetpoints pumpInit (List.replicate 6 0)).2.lockedOut =
      true := by
  have h := C7_nth_start_rejected defaultSetpoints (List.replicate 6 0) 6
    rfl (by norm_num) (by norm_num) (by simp)
    (by
      intro x hx y hy
      simp at hx hy
      rw [hx, hy]
      norm_num)
  simpa using h

/-- Embedding of `TemperatureMonitor._compute_ctl`, parametric in the
exponential function (`math.exp` is floating point; every property below
holds for an arbitrary `expFn`).  `alpha_60 = 0.00046 = 23/50000`. -/
def computeCtl (expFn : ℚ → ℚ) (sp : Setpoints) (observedTempF : ℚ) : ℚ :=
  let dt := observedTempF - sp.temp_base_deg_f
  if |dt| < 1/100 then 1
  else
    max (9/10)
      (min (11/10) (expFn (-(23/50000) * dt * (1 + 4/5 * (23/50000) * dt))))

/-- Embedding of `TemperatureMonitor.execute`: the meter TA probe is the
primary temperature; publish the CTL factor rounded to 6 decimals and the
corrected temperature rounded to 1 decimal.  (The test thermowell tag is
read but not used by this method.) -/
def temperatureExecute (expFn : ℚ → ℚ) (sp : Setpoints) (now : ℚ)
    (st : Store) : Store :=
  let processTemp := (dsRead st "AI_METER_TEMP").toQ
  let ctl := computeCtl expFn sp processTemp
  let st := dsWrite st "CTL_FACTOR" (.vf (rnd 6 ctl)) now
  dsWrite st "TEMP_CORRECTED_F" (.vf (rnd 1 processTemp)) now

/-- C9.  For every input temperature the computed CTL lies in [0.9, 1.1];
within 0.01 °F of the base temperature it is exactly 1; and `execute`
publishes CTL_FACTOR as that value rounded to 6 decimals — all independent
of the exponential function used. -/
theorem C9_ctl_bounds (expFn : ℚ → ℚ) (sp : Setpoints) (T : ℚ) (now : ℚ)
    (st : Store) (hT : dsRead st "AI_METER_TEMP" = Value.vf T) :
    (9/10 ≤ computeCtl expFn sp T ∧ computeCtl expFn sp T ≤ 11/10) ∧
    (|T - sp.temp_base_deg_f| < 1/100 → computeCtl expFn sp T = 1) ∧
    dsRead (temperatureExecute expFn sp now st) "CTL_FACTOR" =
      Value.vf (rnd 6 (computeCtl expFn sp T)) := by
  refine ⟨?_, ?_, ?_⟩
  · unfold computeCtl
    dsimp only
    split
    · norm_num
    · constructor
      · exact le_max_left ..
      · exact max_le (by norm_num) (min_le_left ..)
  · intro h
    unfold computeCtl
    dsimp only
    rw [if_pos h]
  · unfold temperatureExecute
    dsimp only
    rw [dsRead_dsWrite, dsRead_dsWrite]
    simp only [String.reduceEq, if_false, if_true, hT]
    rfl

/-- Witness for C9 at T = 60 °F with the default base of 60 °F (and an
arbitrary stand-in for `exp`): CTL is exactly 1 and CTL_FACTOR reads 1. -/
theorem C9_ctl_bounds_witness :
    computeCtl (fun x => x) defaultSetpoints 60 = 1 ∧
    (9/10 ≤ computeCtl (fun x => x) defaultSetpoints 60 ∧
      computeCtl (fun x => x) defaultSetpoints 60 ≤ 11/10) := by
  have h := C9_ctl_bounds (fun x => x) defaultSetpoints 60 0
    (dsWrite store0 "AI_METER_TEMP" (Value.vf 60) 0)
    (by rw [dsRead_dsWrite]; simp)
  exact ⟨h.2.1 (by norm_num [defaultSetpoints]), h.1⟩

/-- States of the proving workflow (`ProvingState` in
`plc/modules/proving.py`). -/
inductive PState where
  | IDLE
  | SETUP
  | RUNNING
  | CALCULATING
  | COMPLETE
  | FAILED
deriving DecidableEq, Repr

/-- Data of a single proving run (`ProvingRun`); pulse counts are
integer-valued in practice and carried as rationals. -/
structure ProvingRun where
  startTime : ℚ
  endTime : ℚ
  meterPulses : ℚ
  proverVolumeBbl : ℚ
  temperatureF : ℚ
  pressurePsi : ℚ
  meterFactor : ℚ
deriving DecidableEq, Repr

/-- Field defaults of a freshly constructed `ProvingRun`. -/
def provingRunInit : ProvingRun where
  startTime := 0
  endTime := 0
  meterPulses := 0
  proverVolumeBbl := 0
  temperatureF := 60
  pressurePsi := 0
  meterFactor := 0

/-- Private state of `ProvingManager`. -/
structure ProvState where
  pstate : PState
  runs : List ProvingRun
  currentRun : Option ProvingRun
  stateEntryTime : ℚ
  resultMeterFactor : ℚ
  resultRepeatability : ℚ
deriving DecidableEq, Repr

/-- Fresh proving manager state. -/
def provingInit : ProvState where
  pstate := PState.IDLE
  runs := []
  currentRun := Option.none
  stateEntryTime := 0
  resultMeterFactor := 0
  resultRepeatability := 0

/-- Embedding of `ProvingManager.start_proving`. -/
def startProving (now : ℚ) (ps : ProvState) : ProvState :=
  { ps with pstate := PState.SETUP, stateEntryTime := now,
            runs := [], currentRun := Option.none }

/-- Embedding of `ProvingManager._start_run`: capture start time, pulse
count, meter temperature and outlet pressure; go to RUNNING. -/
def provingStartRun (now : ℚ) (ps : ProvState) (st : Store) : ProvState :=
  { ps with
    currentRun := some
      { provingRunInit with
        startTime := now,
        meterPulses := (dsRead st "PI_METER_PULSE").toQ,
        temperatureF := (dsRead st "AI_METER_TEMP").toQ,
        pressurePsi := (dsRead st "AI_OUTLET_PRESS").toQ },
    pstate := PState.RUNNING }

/-- Embedding of `ProvingManager._handle_setup`: assert the prover valve;
start the first run once the open limit confirms, or fail after 30 s. -/
def provingHandleSetup (now : ℚ) (ps : ProvState) (st : Store) :
    ProvState × Store :=
  let st1 := dsWrite st "DO_PROVER_VLV_CMD" (.vb true) now
  if (dsRead st1 "DI_PROVER_VLV_OPEN").truthy then
    (provingStartRun now ps st1, st1)
  else if now - ps.stateEntryTime > 30 then
    ({ ps with pstate := PState.FAILED },
     dsWrite st1 "DO_PROVER_VLV_CMD" (.vb false) now)
  else (ps, st1)

/-- Python `sum` over a list of rationals. -/
def qsum (l : List ℚ) : ℚ := l.foldl (· + ·) 0

/-- Python `max` over a list of rationals (total: 0 on the empty list,
which raises in Python and is never reached below). -/
def qmax : List ℚ → ℚ
  | [] => 0
  | x :: xs => xs.foldl max x

/-- Python `min` over a list of rationals (total like `qmax`). -/
def qmin : List ℚ → ℚ
  | [] => 0
  | x :: xs => xs.foldl min x

/-- Embedding of `ProvingManager._end_run`: compute the run's pulse delta
and meter factor (1.0 when the k-factor or pulse count is non-positive),
append the run, and either continue with the next run or move to
CALCULATING once `prove_num_runs` runs are complete. -/
def provingEndRun (sp : Setpoints) (now : ℚ) (run : ProvingRun)
    (ps : ProvState) (st : Store) : ProvState × Store :=
  let endPulses := (dsRead st "PI_METER_PULSE").toQ
  let pulses := endPulses - run.meterPulses
  let mf := if sp.meter_k_factor > 0 ∧ pulses > 0 then
              10 / (pulses / sp.meter_k_factor)
            else 1
  let run1 := { run with endTime := now, meterPulses := pulses,
                         proverVolumeBbl := 10, meterFactor := mf }
  let ps1 := { ps with runs := ps.runs ++ [run1], currentRun := some run1 }
  if ps1.runs.length ≥ sp.prove_num_runs then
    ({ ps1 with pstate := PState.CALCULATING }, st)
  else (provingStartRun now ps1 st, st)

/-- Embedding of `ProvingManager._handle_running`: a run completes after a
simulated 60 s.  (A missing `current_run` would raise in Python; this state
is only ever entered with a run in progress.) -/
def provingHandleRunning (sp : Setpoints) (now : ℚ) (ps : ProvState)
    (st : Store) : ProvState × Store :=
  match ps.currentRun with
  | some run =>
    if now - run.startTime ≥ 60 then provingEndRun sp now run ps st
    else (ps, st)
  | Option.none => (ps, st)

/-- Embedding of `ProvingManager._handle_calculating`: average the run
meter factors, compute repeatability = range / average × 100 (0 when the
average is 0, as in the Python guard — and identically in ℚ, where x / 0 =
0); fail on poor repeatability or an out-of-range average, else write
METER_FACTOR (rounded to 4 decimals) and complete. -/
def provingHandleCalculating (sp : Setpoints) (now : ℚ) (ps : ProvState)
    (st : Store) : ProvState × Store :=
  let mfs := ps.runs.map (fun r => r.meterFactor)
  if mfs.isEmpty then ({ ps with pstate := PState.FAILED }, st)
  else
    let avg := qsum mfs / (mfs.length : ℚ)
    let range := qmax mfs - qmin mfs
    let rep := if avg ≠ 0 then (range / avg) * 100 else 0
    let ps1 := { ps with resultMeterFactor := rnd 4 avg,
                         resultRepeatability := rnd 4 rep }
    if rep > sp.prove_repeatability_pct then
      ({ ps1 with pstate := PState.FAILED }, st)
    else if ¬(sp.prove_meter_factor_min ≤ avg ∧
              avg ≤ sp.prove_meter_factor_max) then
      ({ ps1 with pstate := PState.FAILED }, st)
    else
      ({ ps1 with pstate := PState.COMPLETE },
       dsWrite st "METER_FACTOR" (.vf (rnd 4 avg)) now)

/-- Embedding of `_handle_complete` / `_handle_failed`: de-assert the
prover valve. -/
def provingHandleDone (now : ℚ) (ps : ProvState) (st : Store) :
    ProvState × Store :=
  (ps, dsWrite st "DO_PROVER_VLV_CMD" (.vb false) now)

/-- Embedding of `ProvingManager.execute`: dispatch on the proving state. -/
def provingExecute (sp : Setpoints) (now : ℚ) (ps : ProvState) (st : Store) :
    ProvState × Store :=
  match ps.pstate with
  | PState.IDLE => (ps, st)
  | PState.SETUP => provingHandleSetup now ps st
  | PState.RUNNING => provingHandleRunning sp now ps st
  | PState.CALCULATING => provingHandleCalculating sp now ps st
  | PState.COMPLETE => provingHandleDone now ps st
  | PState.FAILED => provingHandleDone now ps st

/-- C5.  Entering Calculating with a non-empty run list: if repeatability
(range over average × 100) exceeds `prove_repeatability_pct`, or the
average meter factor lies outside [`prove_meter_factor_min`,
`prove_meter_factor_max`], the proving state becomes FAILED and the store
(in particular METER_FACTOR) is untouched; otherwise METER_FACTOR is
written as the average rounded to 4 decimals and the state becomes
COMPLETE. -/
theorem C5_calculating_validates (sp : Setpoints) (now : ℚ) (ps : ProvState)
    (st : Store) (hne : ps.runs ≠ []) :
    ((qmax (ps.runs.map (fun r => r.meterFactor)) -
        qmin (ps.runs.map (fun r => r.meterFactor))) /
        (qsum (ps.runs.map (fun r => r.meterFactor)) /
          ((ps.runs.map (fun r => r.meterFactor)).length : ℚ)) * 100 >
        sp.prove_repeatability_pct ∨
     qsum (ps.runs.map (fun r => r.meterFactor)) /
        ((ps.runs.map (fun r => r.meterFactor)).length : ℚ) <
        sp.prove_meter_factor_min ∨
     qsum (ps.runs.map (fun r => r.meterFactor)) /
        ((ps.runs.map (fun r => r.meterFactor)).length : ℚ) >
        sp.prove_meter_factor_max →
      (provingHandleCalculating sp now ps st).1.pstate = PState.FAILED ∧
      (provingHandleCalculating sp now ps st).2 = st) ∧
    (¬((qmax (ps.runs.map (fun r => r.meterFactor)) -
        qmin (ps.runs.map (fun r => r.meterFactor))) /
        (qsum (ps.runs.map (fun r => r.meterFactor)) /
          ((ps.runs.map (fun r => r.meterFactor)).length : ℚ)) * 100 >
        sp.prove_repeatability_pct ∨
      qsum (ps.runs.map (fun r => r.meterFactor)) /
        ((ps.runs.map (fun r => r.meterFactor)).length : ℚ) <
        sp.prove_meter_factor_min ∨
      qsum (ps.runs.map (fun r => r.meterFactor)) /
        ((ps.runs.map (fun r => r.meterFactor)).length : ℚ) >
        sp.prove_meter_factor_max) →
      (provingHandleCalculating sp now ps st).1.pstate = PState.COMPLETE ∧
      dsRead (provingHandleCalculating sp now ps st).2 "METER_FACTOR" =
        Value.vf (rnd 4 (qsum (ps.runs.map (fun r => r.meterFactor)) /
          ((ps.runs.map (fun r => r.meterFactor)).length : ℚ)))) := by
  unfold provingHandleCalculating
  dsimp only
  have hmfs : (ps.runs.map (fun r => r.meterFactor)).isEmpty = false := by
    cases hr : ps.runs with
    | nil => exact absurd hr hne
    | cons a l => rfl
  rw [hmfs]
  simp only [Bool.false_eq_true, if_false]
  set mfs := ps.runs.map (fun r => r.meterFactor) with hmfsdef
  set avg := qsum mfs / (mfs.length : ℚ) with havg
  set range := qmax mfs - qmin mfs with hrange
  have hrepeq : (if avg ≠ 0 then (range / avg) * 100 else 0) =
      range / avg * 100 := by
    by_cases hz : avg = 0
    · rw [if_neg (by simp [hz]), hz]
      simp
    · rw [if_pos hz]
  rw [hrepeq]
  constructor
  · intro hbad
    rcases hbad with hrep | hlo | hhi
    · rw [if_pos hrep]
      exact ⟨rfl, rfl⟩
    · by_cases hrep : range / avg * 100 > sp.prove_repeatability_pct
      · rw [if_pos hrep]
        exact ⟨rfl, rfl⟩
      · rw [if_neg hrep, if_pos (by intro hc; linarith [hc.1])]
        exact ⟨rfl, rfl⟩
    · by_cases hrep : range / avg * 100 > sp.prove_repeatability_pct
      · rw [if_pos hrep]
        exact ⟨rfl, rfl⟩
      · rw [if_neg hrep, if_pos (by intro hc; linarith [hc.2])]
        exact ⟨rfl, rfl⟩
  · intro hgood
    push_neg at hgood
    rw [if_neg (by linarith [hgood.1]),
        if_neg (by push_neg; exact ⟨hgood.2.1, hgood.2.2⟩)]
    refine ⟨rfl, ?_⟩
    rw [dsRead_dsWrite]
    simp

/-- One proving run with the given meter factor (used for witnesses). -/
def mkRunMF (mf : ℚ) : ProvingRun := { provingRunInit with meterFactor := mf }

/-- Proving manager about to calculate over five perfect runs (per-run
meter factor 1.0000, end-to-end scenario 5 of the specification). -/
def psFiveGood : ProvState :=
  { provingInit with pstate := PState.CALCULATING,
                     runs := [mkRunMF 1, mkRunMF 1, mkRunMF 1, mkRunMF 1,
                              mkRunMF 1] }

/-- Witness for C5 with five runs of meter factor 1.0000 under default
setpoints: repeatability 0, average 1.0 in range, so proving completes and
METER_FACTOR reads 1.0000. -/
theorem C5_calculating_validates_witness :
    (provingHandleCalculating defaultSetpoints 0 psFiveGood store0).1.pstate =
      PState.COMPLETE ∧
    dsRead (provingHandleCalculating defaultSetpoints 0 psFiveGood
      store0).2 "METER_FACTOR" = Value.vf 1 := by
  have h := (C5_calculating_validates defaultSetpoints 0 psFiveGood store0
    (by simp [psFiveGood])).2
    (by
      push_neg
      refine ⟨?_, ?_, ?_⟩ <;>
        norm_num [psFiveGood, mkRunMF, provingRunInit, qsum, qmax, qmin,
          defaultSetpoints, provingInit])
  refine ⟨h.1, ?_⟩
  rw [h.2]
  have : rnd 4 (qsum (psFiveGood.runs.map (fun r => r.meterFactor)) /
      ((psFiveGood.runs.map (fun r => r.meterFactor)).length : ℚ)) = 1 := by
    have hq : qsum (psFiveGood.runs.map (fun r => r.meterFactor)) /
        ((psFiveGood.runs.map (fun r => r.meterFactor)).length : ℚ) = 1 := by
      norm_num [psFiveGood, mkRunMF, provingRunInit, qsum, provingInit]
    rw [hq]
    unfold rnd rndInt
    norm_num
  rw [this]

/-- Private state of `FlowMeasurement` (pulse counts are integer-valued in
practice and carried as rationals). -/
structure FlowState where
  lastPulseCount : ℚ
  lastPulseTime : ℚ
  flowRateBph : ℚ
  grossTotalBbl : ℚ
deriving DecidableEq, Repr

/-- Model of the Python idiom `ds.read(tag) or default` in numeric
position: the tag's value when truthy, else the default. -/
def pyOr (v : Value) (d : ℚ) : ℚ := if v.truthy then v.toQ else d

/-- Embedding of `FlowMeasurement.execute`: pulse delta (a negative delta
is a counter reset and the current count is used), volume increment guarded
against a non-positive k-factor, flow rate with 2 s decay, meter-factor and
CTL corrections, and the five published tags. -/
def flowExecute (sp : Setpoints) (now : ℚ) (fs : FlowState) (st : Store) :
    FlowState × Store :=
  let currentPulses := (dsRead st "PI_METER_PULSE").toQ
  let deltaPulses0 := currentPulses - fs.lastPulseCount
  let deltaTime0 := now - fs.lastPulseTime
  let deltaPulses := if deltaPulses0 < 0 then currentPulses else deltaPulses0
  let deltaTime := if deltaTime0 ≤ 0 then sp.scan_rate_ms / 1000 else deltaTime0
  let deltaBbl := if sp.meter_k_factor > 0 then deltaPulses / sp.meter_k_factor
                  else 0
  let flowRate :=
    if deltaTime > 0 ∧ deltaPulses > 0 then deltaBbl / deltaTime * 3600
    else if deltaTime > 2 then 0
    else fs.flowRateBph
  let gross := fs.grossTotalBbl + deltaBbl
  let meterFactor := pyOr (dsRead st "METER_FACTOR") 1
  let correctedGross := gross * meterFactor
  let ctl := pyOr (dsRead st "CTL_FACTOR") 1
  let netBbl := correctedGross * ctl
  let st := dsWrite st "FLOW_RATE_BPH" (.vf (rnd 2 flowRate)) now
  let st := dsWrite st "FLOW_TOTAL_BBL" (.vf (rnd 4 gross)) now
  let st := dsWrite st "FLOW_NET_BBL" (.vf (rnd 4 netBbl)) now
  let st := dsWrite st "BATCH_GROSS_BBL" (.vf (rnd 4 correctedGross)) now
  let st := dsWrite st "BATCH_NET_BBL" (.vf (rnd 4 netBbl)) now
  ({ lastPulseCount := currentPulses, lastPulseTime := now,
     flowRateBph := flowRate, grossTotalBbl := gross }, st)

/-- Embedding of `FlowMeasurement.reset_totals`: zero the private gross
accumulator and the four published total tags. -/
def flowReset (now : ℚ) (fs : FlowState) (st : Store) : FlowState × Store :=
  let st := dsWrite st "FLOW_TOTAL_BBL" (.vf 0) now
  let st := dsWrite st "FLOW_NET_BBL" (.vf 0) now
  let st := dsWrite st "BATCH_GROSS_BBL" (.vf 0) now
  let st := dsWrite st "BATCH_NET_BBL" (.vf 0) now
  ({ fs with grossTotalBbl := 0 }, st)

theorem flowExecute_gross (sp : Setpoints) (now : ℚ) (fs : FlowState)
    (st : Store) :
    (flowExecute sp now fs st).1.grossTotalBbl =
      fs.grossTotalBbl +
        (if sp.meter_k_factor > 0 then
          (if (dsRead st "PI_METER_PULSE").toQ - fs.lastPulseCount < 0 then
            (dsRead st "PI_METER_PULSE").toQ
           else (dsRead st "PI_METER_PULSE").toQ - fs.lastPulseCount) /
            sp.meter_k_factor
         else 0) := rfl

theorem flowExecute_lastPulse (sp : Setpoints) (now : ℚ) (fs : FlowState)
    (st : Store) :
    (flowExecute sp now fs st).1.lastPulseCount =
      (dsRead st "PI_METER_PULSE").toQ := rfl

theorem flowExecute_total_read (sp : Setpoints) (now : ℚ) (fs : FlowState)
    (st : Store) :
    dsRead (flowExecute sp now fs st).2 "FLOW_TOTAL_BBL" =
      Value.vf (rnd 4 (flowExecute sp now fs st).1.grossTotalBbl) := by
  unfold flowExecute
  dsimp only
  rw [dsRead_dsWrite, dsRead_dsWrite, dsRead_dsWrite, dsRead_dsWrite]
  simp

/-- C6.  Across two consecutive `FlowMeasurement.execute` cycles: (a) if the
pulse counter did not decrease between the cycles, the FLOW_TOTAL_BBL value
written by the second cycle is ≥ the one written by the first; (b) if it did
decrease, the delta used by the second cycle is the current counter value
(gross grows by current/k); (c) a k-factor of 0 yields a zero increment. -/
theorem C6_flow_total_monotone (sp : Setpoints) (fs : FlowState)
    (st1 st2 : Store) (t1 t2 : ℚ) (p1 p2 : ℚ)
    (hp1 : (dsRead st1 "PI_METER_PULSE").toQ = p1)
    (hp2 : (dsRead st2 "PI_METER_PULSE").toQ = p2) :
    (p1 ≤ p2 →
      ∀ q1 q2 : ℚ,
        dsRead (flowExecute sp t1 fs st1).2 "FLOW_TOTAL_BBL" = Value.vf q1 →
        dsRead (flowExecute sp t2 (flowExecute sp t1 fs st1).1 st2).2
          "FLOW_TOTAL_BBL" = Value.vf q2 →
        q1 ≤ q2) ∧
    (p2 < p1 →
      (flowExecute sp t2 (flowExecute sp t1 fs st1).1 st2).1.grossTotalBbl =
        (flowExecute sp t1 fs st1).1.grossTotalBbl +
          (if sp.meter_k_factor > 0 then p2 / sp.meter_k_factor else 0)) ∧
    (sp.meter_k_factor = 0 →
      (flowExecute sp t2 (flowExecute sp t1 fs st1).1 st2).1.grossTotalBbl =
        (flowExecute sp t1 fs st1).1.grossTotalBbl ∧
      (flowExecute sp t1 fs st1).1.grossTotalBbl = fs.grossTotalBbl) := by
  have hg1 := flowExecute_gross sp t1 fs st1
  have hg2 := flowExecute_gross sp t2 (flowExecute sp t1 fs st1).1 st2
  have hlp := flowExecute_lastPulse sp t1 fs st1
  refine ⟨?_, ?_, ?_⟩
  · intro hle q1 q2 hq1 hq2
    rw [flowExecute_total_read] at hq1 hq2
    have e1 : q1 = rnd 4 (flowExecute sp t1 fs st1).1.grossTotalBbl := by
      injection hq1.symm
    have e2 : q2 = rnd 4
        (flowExecute sp t2 (flowExecute sp t1 fs st1).1 st2).1.grossTotalBbl := by
      injection hq2.symm
    rw [e1, e2]
    apply rnd_mono
    rw [hg2, hlp, hp2, hp1]
    have hinc : (0:ℚ) ≤
        (if sp.meter_k_factor > 0 then
          (if p2 - p1 < 0 then p2 else p2 - p1) / sp.meter_k_factor
         else 0) := by
      by_cases hk : sp.meter_k_factor > 0
      · rw [if_pos hk, if_neg (by linarith)]
        exact div_nonneg (by linarith) (le_of_lt hk)
      · rw [if_neg hk]
    linarith
  · intro hlt
    rw [hg2, hlp, hp2, hp1]
    have hin : (if p2 - p1 < 0 then p2 else p2 - p1) = p2 :=
      if_pos (by linarith)
    rw [hin]
  · intro hk
    constructor
    · rw [hg2, if_neg (by rw [hk]; exact lt_irrefl 0)]
      ring
    · rw [hg1, if_neg (by rw [hk]; exact lt_irrefl 0)]
      ring

/-- Store holding only a pulse-counter reading. -/
def pulseStore (p : ℚ) : Store :=
  fun t => if t = "PI_METER_PULSE" then some ⟨Value.vf p, 0, "GOOD"⟩
           else Option.none

/-- Fresh flow-measurement state (pulse baseline 0). -/
def flowInit : FlowState where
  lastPulseCount := 0
  lastPulseTime := 0
  flowRateBph := 0
  grossTotalBbl := 0

/-- Witness for C6 at concrete inputs: counters 100 then 250 (no reset),
with the default k-factor; the two written totals are ordered; and the
k = 0 guard yields no increment. -/
theorem C6_flow_total_monotone_witness :
    (∀ q1 q2 : ℚ,
      dsRead (flowExecute defaultSetpoints 1 flowInit (pulseStore 100)).2
        "FLOW_TOTAL_BBL" = Value.vf q1 →
      dsRead (flowExecute defaultSetpoints 2
          (flowExecute defaultSetpoints 1 flowInit (pulseStore 100)).1
          (pulseStore 250)).2 "FLOW_TOTAL_BBL" = Value.vf q2 →
      q1 ≤ q2) ∧
    ({ defaultSetpoints with meter_k_factor := 0 }.meter_k_factor = 0 →
      (flowExecute { defaultSetpoints with meter_k_factor := 0 } 1 flowInit
        (pulseStore 100)).1.grossTotalBbl = flowInit.grossTotalBbl) := by
  constructor
  · exact (C6_flow_total_monotone defaultSetpoints flowInit (pulseStore 100)
      (pulseStore 250) 1 2 100 250 rfl rfl).1 (by norm_num)
  · intro hk
    exact ((C6_flow_total_monotone { defaultSetpoints with meter_k_factor := 0 }
      flowInit (pulseStore 100) (pulseStore 100) 1 2 100 100 rfl rfl).2.2
      hk).2

/-- C10.  On every `FlowMeasurement.execute` cycle the values written to
FLOW_NET_BBL and BATCH_NET_BBL are identical; when the METER_FACTOR tag
holds a non-zero float μ, BATCH_GROSS_BBL is written as the cumulative
gross accumulator times μ (rounded to 4 decimals); and `reset_totals`
zeros the accumulator and all four published totals together. -/
theorem C10_batch_equals_cumulative (sp : Setpoints) (now : ℚ)
    (fs : FlowState) (st : Store) (μ : ℚ) :
    (dsRead (flowExecute sp now fs st).2 "FLOW_NET_BBL" =
      dsRead (flowExecute sp now fs st).2 "BATCH_NET_BBL") ∧
    (dsRead st "METER_FACTOR" = Value.vf μ → μ ≠ 0 →
      dsRead (flowExecute sp now fs st).2 "BATCH_GROSS_BBL" =
        Value.vf (rnd 4 ((flowExecute sp now fs st).1.grossTotalBbl * μ))) ∧
    ((flowReset now fs st).1.grossTotalBbl = 0 ∧
     dsRead (flowReset now fs st).2 "FLOW_TOTAL_BBL" = Value.vf 0 ∧
     dsRead (flowReset now fs st).2 "FLOW_NET_BBL" = Value.vf 0 ∧
     dsRead (flowReset now fs st).2 "BATCH_GROSS_BBL" = Value.vf 0 ∧
     dsRead (flowReset now fs st).2 "BATCH_NET_BBL" = Value.vf 0) := by
  refine ⟨?_, ?_, ?_⟩
  · unfold flowExecute
    dsimp only
    simp [dsRead_dsWrite]
  · intro hmf hz
    unfold flowExecute
    dsimp only
    rw [dsRead_dsWrite, dsRead_dsWrite]
    simp only [String.reduceEq, if_false, if_true]
    rw [hmf]
    unfold pyOr Value.truthy Value.toQ
    simp [hz]
  · refine ⟨rfl, ?_, ?_, ?_, ?_⟩ <;>
      (unfold flowReset
       dsimp only
       rw [dsRead_dsWrite, dsRead_dsWrite, dsRead_dsWrite, dsRead_dsWrite]
       simp)

/-- Witness for C10 at concrete inputs: a cycle over a store holding
METER_FACTOR = 1.02 ≠ 0. -/
theorem C10_batch_equals_cumulative_witness :
    dsRead (flowExecute defaultSetpoints 1 flowInit
        (dsWrite (pulseStore 100) "METER_FACTOR" (Value.vf (51/50)) 0)).2
      "BATCH_GROSS_BBL" =
      Value.vf (rnd 4 ((flowExecute defaultSetpoints 1 flowInit
        (dsWrite (pulseStore 100) "METER_FACTOR" (Value.vf (51/50)) 0)).1.grossTotalBbl
          * (51/50))) :=
  (C10_batch_equals_cumulative defaultSetpoints 1 flowInit
      (dsWrite (pulseStore 100) "METER_FACTOR" (Value.vf (51/50)) 0)
      (51/50)).2.1
    (by rw [dsRead_dsWrite]; simp) (by norm_num)

/-- An alarm definition (`AlarmDefinition` in `plc/config/alarms.py`):
priority INFO=0 … CRITICAL=4; action LOG_ONLY=0, ANNUNCIATE=1, DIVERT=2,
SHUTDOWN=3, EMERGENCY_STOP=4; every configured alarm keeps the defaults
`latching = True`, `auto_acknowledge = False`. -/
structure AlarmDefn where
  priority : ℕ
  action : ℕ
  latching : Bool
  autoAcknowledge : Bool
deriving DecidableEq, Repr

/-- The alarm table of `AlarmConfig.definitions` (tag ↦ priority, action). -/
def alarmDefs : String → Option AlarmDefn
  | "ALM_ESTOP" => some ⟨4, 4, true, false⟩
  | "ALM_PUMP_OVERLOAD" => some ⟨4, 3, true, false⟩
  | "ALM_PUMP_FAIL_START" => some ⟨3, 3, true, false⟩
  | "ALM_PUMP_MAX_STARTS" => some ⟨3, 1, true, false⟩
  | "ALM_BSW_HIGH" => some ⟨2, 1, true, false⟩
  | "ALM_BSW_DIVERT" => some ⟨3, 2, true, false⟩
  | "ALM_BSW_PROBE_FAIL" => some ⟨3, 2, true, false⟩
  | "ALM_INLET_PRESS_LO" => some ⟨3, 3, true, false⟩
  | "ALM_INLET_PRESS_HI" => some ⟨3, 3, true, false⟩
  | "ALM_LOOP_PRESS_HI" => some ⟨3, 3, true, false⟩
  | "ALM_OUTLET_PRESS_LO" => some ⟨2, 1, true, false⟩
  | "ALM_STRAINER_DP_HI" => some ⟨2, 1, true, false⟩
  | "ALM_TEMP_LO" => some ⟨2, 1, true, false⟩
  | "ALM_TEMP_HI" => some ⟨2, 1, true, false⟩
  | "ALM_TEMP_DELTA" => some ⟨1, 1, true, false⟩
  | "ALM_FLOW_LO" => some ⟨2, 1, true, false⟩
  | "ALM_FLOW_HI" => some ⟨3, 1, true, false⟩
  | "ALM_NO_FLOW" => some ⟨3, 3, true, false⟩
  | "ALM_DIVERT_FAIL" => some ⟨4, 3, true, false⟩
  | "ALM_SAMPLE_POT_FULL" => some ⟨1, 1, true, false⟩
  | "ALM_GAS_DETECTED" => some ⟨2, 1, true, false⟩
  | "ALM_PROVE_REPEAT_FAIL" => some ⟨1, 1, true, false⟩
  | "ALM_PROVE_MF_RANGE" => some ⟨2, 1, true, false⟩
  | _ => Option.none

/-- The alarm tags in the dictionary's insertion order (used when the
safety manager iterates over `alarm_states.values()`). -/
def alarmTagList : List String :=
  ["ALM_ESTOP", "ALM_PUMP_OVERLOAD", "ALM_PUMP_FAIL_START",
   "ALM_PUMP_MAX_STARTS", "ALM_BSW_HIGH", "ALM_BSW_DIVERT",
   "ALM_BSW_PROBE_FAIL", "ALM_INLET_PRESS_LO", "ALM_INLET_PRESS_HI",
   "ALM_LOOP_PRESS_HI", "ALM_OUTLET_PRESS_LO", "ALM_STRAINER_DP_HI",
   "ALM_TEMP_LO", "ALM_TEMP_HI", "ALM_TEMP_DELTA", "ALM_FLOW_LO",
   "ALM_FLOW_HI", "ALM_NO_FLOW", "ALM_DIVERT_FAIL", "ALM_SAMPLE_POT_FULL",
   "ALM_GAS_DETECTED", "ALM_PROVE_REPEAT_FAIL", "ALM_PROVE_MF_RANGE"]

/-- Mutable state of `SafetyManager`: the per-alarm runtime states, the
horn-silence timestamp and the two per-cycle request flags. -/
structure SafetyState where
  alarms : String → AlarmSt
  hornSilenceTime : Option ℚ
  shutdownRequested : Bool
  divertRequested : Bool

/-- Fresh safety manager state. -/
def safetyInit : SafetyState where
  alarms := fun _ => alarmInit
  hornSilenceTime := Option.none
  shutdownRequested := false
  divertRequested := false

/-- Embedding of `SafetyManager._activate`: update the alarm state and
derive the shutdown/divert request from the alarm's action. -/
def safActivate (tag : String) (v : ℚ) (now : ℚ) (ss : SafetyState) :
    SafetyState :=
  match alarmDefs tag with
  | Option.none => ss
  | some d =>
    let a := (ss.alarms tag).activate now v
    let ss1 := { ss with alarms := fun t => if t = tag then a else ss.alarms t }
    if d.action = 3 ∨ d.action = 4 then { ss1 with shutdownRequested := true }
    else if d.action = 2 then { ss1 with divertRequested := true }
    else ss1

/-- Embedding of `SafetyManager._deactivate`. -/
def safDeactivate (tag : String) (ss : SafetyState) : SafetyState :=
  match alarmDefs tag with
  | Option.none => ss
  | some d =>
    { ss with alarms := fun t =>
        if t = tag then (ss.alarms tag).deactivate d.latching
        else ss.alarms t }

/-- Embedding of `_check_estop`. -/
def checkEstop (now : ℚ) (st : Store) (ss : SafetyState) : SafetyState :=
  if (dsRead st "DI_ESTOP").truthy then safActivate "ALM_ESTOP" 0 now ss
  else safDeactivate "ALM_ESTOP" ss

/-- Embedding of `_check_pump`: the overload check, then the fail-to-start
check (which only deactivates when the command/feedback condition is
absent; within the 10 s motor-start grace window nothing changes). -/
def checkPump (now : ℚ) (st : Store) (ss : SafetyState) : SafetyState :=
  let ss1 :=
    if (dsRead st "DI_PUMP_OVERLOAD").truthy then
      safActivate "ALM_PUMP_OVERLOAD" 0 now ss
    else safDeactivate "ALM_PUMP_OVERLOAD" ss
  if (dsRead st "DO_PUMP_START").truthy ∧
      ¬(dsRead st "DI_PUMP_RUNNING").truthy then
    match st "DO_PUMP_START" with
    | some e =>
      if now - e.ts > 10 then safActivate "ALM_PUMP_FAIL_START" 0 now ss1
      else ss1
    | Option.none => ss1
  else safDeactivate "ALM_PUMP_FAIL_START" ss1

/-- Embedding of `_check_bsw`: probe-quality, high and divert threshold
checks; crossing the divert threshold also forces the divert request. -/
def checkBsw (sp : Setpoints) (now : ℚ) (st : Store) (ss : SafetyState) :
    SafetyState :=
  let bsw := (dsRead st "AI_BSW_PROBE").toQ
  let ss1 :=
    match st "AI_BSW_PROBE" with
    | some e =>
      if e.quality = "BAD" then safActivate "ALM_BSW_PROBE_FAIL" 0 now ss
      else safDeactivate "ALM_BSW_PROBE_FAIL" ss
    | Option.none => safDeactivate "ALM_BSW_PROBE_FAIL" ss
  let ss2 :=
    if bsw ≥ sp.bsw_alarm_pct then safActivate "ALM_BSW_HIGH" bsw now ss1
    else safDeactivate "ALM_BSW_HIGH" ss1
  if bsw ≥ sp.bsw_divert_pct then
    { safActivate "ALM_BSW_DIVERT" bsw now ss2 with divertRequested := true }
  else safDeactivate "ALM_BSW_DIVERT" ss2

/-- Embedding of `_check_pressures` (inlet-low and outlet-low checks are
gated on the pump running and do not deactivate when it is stopped). -/
def checkPressures (sp : Setpoints) (now : ℚ) (st : Store)
    (ss : SafetyState) : SafetyState :=
  let inletP := (dsRead st "AI_INLET_PRESS").toQ
  let loopP := (dsRead st "AI_LOOP_HI_PRESS").toQ
  let outletP := (dsRead st "AI_OUTLET_PRESS").toQ
  let strainerDp := (dsRead st "AI_STRAINER_DP").toQ
  let pumpRunning := (dsRead st "DI_PUMP_RUNNING").truthy
  let ss1 :=
    if pumpRunning then
      if inletP < sp.inlet_press_lo_psi then
        safActivate "ALM_INLET_PRESS_LO" inletP now ss
      else safDeactivate "ALM_INLET_PRESS_LO" ss
    else ss
  let ss2 :=
    if inletP > sp.inlet_press_hi_psi then
      safActivate "ALM_INLET_PRESS_HI" inletP now ss1
    else safDeactivate "ALM_INLET_PRESS_HI" ss1
  let ss3 :=
    if loopP > sp.loop_press_hi_psi then
      safActivate "ALM_LOOP_PRESS_HI" loopP now ss2
    else safDeactivate "ALM_LOOP_PRESS_HI" ss2
  let ss4 :=
    if pumpRunning then
      if outletP < sp.outlet_press_lo_psi then
        safActivate "ALM_OUTLET_PRESS_LO" outletP now ss3
      else safDeactivate "ALM_OUTLET_PRESS_LO" ss3
    else ss3
  if strainerDp > sp.strainer_dp_hi_psi then
    safActivate "ALM_STRAINER_DP_HI" strainerDp now ss4
  else safDeactivate "ALM_STRAINER_DP_HI" ss4

/-- Embedding of `_check_temperatures`. -/
def checkTemperatures (sp : Setpoints) (now : ℚ) (st : Store)
    (ss : SafetyState) : SafetyState :=
  let meterTemp := (dsRead st "AI_METER_TEMP").toQ
  let testTemp := (dsRead st "AI_TEST_THERMO").toQ
  let ss1 :=
    if meterTemp < sp.temp_lo_alarm_f then
      safActivate "ALM_TEMP_LO" meterTemp now ss
    else safDeactivate "ALM_TEMP_LO" ss
  let ss2 :=
    if meterTemp > sp.temp_hi_alarm_f then
      safActivate "ALM_TEMP_HI" meterTemp now ss1
    else safDeactivate "ALM_TEMP_HI" ss1
  if |meterTemp - testTemp| > sp.temp_max_delta_f then
    safActivate "ALM_TEMP_DELTA" |meterTemp - testTemp| now ss2
  else safDeactivate "ALM_TEMP_DELTA" ss2

/-- Embedding of `_check_flow`: all three flow alarms deactivate when the
pump is stopped; the no-flow alarm waits `meter_no_flow_timeout_sec` from
the pump-running tag's timestamp. -/
def checkFlow (sp : Setpoints) (now : ℚ) (st : Store) (ss : SafetyState) :
    SafetyState :=
  let flowRate := (dsRead st "FLOW_RATE_BPH").toQ
  let pumpRunning := (dsRead st "DI_PUMP_RUNNING").truthy
  if ¬pumpRunning then
    safDeactivate "ALM_NO_FLOW"
      (safDeactivate "ALM_FLOW_HI" (safDeactivate "ALM_FLOW_LO" ss))
  else
    let ss1 :=
      if flowRate < sp.meter_min_flow_bph ∧ flowRate > 0 then
        safActivate "ALM_FLOW_LO" flowRate now ss
      else safDeactivate "ALM_FLOW_LO" ss
    let ss2 :=
      if flowRate > sp.meter_max_flow_bph then
        safActivate "ALM_FLOW_HI" flowRate now ss1
      else safDeactivate "ALM_FLOW_HI" ss1
    if flowRate = 0 ∧ pumpRunning then
      match st "DI_PUMP_RUNNING" with
      | some e =>
        if now - e.ts > sp.meter_no_flow_timeout_sec then
          safActivate "ALM_NO_FLOW" 0 now ss2
        else ss2
      | Option.none => ss2
    else safDeactivate "ALM_NO_FLOW" ss2

/-- Embedding of `_check_divert_valve`: travel-timeout supervision against
the DO_DIVERT_CMD tag's last-write timestamp. -/
def checkDivertValve (sp : Setpoints) (now : ℚ) (st : Store)
    (ss : SafetyState) : SafetyState :=
  let cmd := (dsRead st "DO_DIVERT_CMD").truthy
  let atSales := (dsRead st "DI_DIVERT_SALES").truthy
  let atDivert := (dsRead st "DI_DIVERT_DIVERT").truthy
  match st "DO_DIVERT_CMD" with
  | some e =>
    if e.ts > 0 then
      if cmd ∧ ¬atDivert ∧ now - e.ts > sp.divert_travel_timeout_sec then
        safActivate "ALM_DIVERT_FAIL" 0 now ss
      else if ¬cmd ∧ ¬atSales ∧ now - e.ts > sp.divert_travel_timeout_sec then
        safActivate "ALM_DIVERT_FAIL" 0 now ss
      else safDeactivate "ALM_DIVERT_FAIL" ss
    else safDeactivate "ALM_DIVERT_FAIL" ss
  | Option.none => safDeactivate "ALM_DIVERT_FAIL" ss

/-- Embedding of `_check_sampler`. -/
def checkSampler (now : ℚ) (st : Store) (ss : SafetyState) : SafetyState :=
  if (dsRead st "DI_SAMPLE_POT_HI").truthy then
    safActivate "ALM_SAMPLE_POT_FULL" 0 now ss
  else safDeactivate "ALM_SAMPLE_POT_FULL" ss

/-- Embedding of `_check_air_eliminator`. -/
def checkAirEliminator (now : ℚ) (st : Store) (ss : SafetyState) :
    SafetyState :=
  if (dsRead st "DI_AIR_ELIM_FLOAT").truthy then
    safActivate "ALM_GAS_DETECTED" 0 now ss
  else safDeactivate "ALM_GAS_DETECTED" ss

/-- Active alarms in iteration order. -/
def activeAlarms (ss : SafetyState) : List String :=
  alarmTagList.filter (fun t => (ss.alarms t).active)

/-- Unacknowledged (active and not acknowledged) alarms. -/
def unackAlarms (ss : SafetyState) : List String :=
  alarmTagList.filter (fun t => (ss.alarms t).unackReported)

/-- Priority of an alarm tag (0 for unknown tags; matches the IntEnum). -/
def alarmPriority (tag : String) : ℕ :=
  match alarmDefs tag with
  | some d => d.priority
  | Option.none => 0

/-- Action of an alarm tag. -/
def alarmAction (tag : String) : ℕ :=
  match alarmDefs tag with
  | some d => d.action
  | Option.none => 0

/-- Embedding of `_update_alarm_summary`: the three summary tags. -/
def updateAlarmSummary (now : ℚ) (ss : SafetyState) (st : Store) : Store :=
  let active := activeAlarms ss
  let unack := unackAlarms ss
  let highest := (active.map alarmPriority).foldl max 0
  let st := dsWrite st "ALARM_ACTIVE_COUNT" (.vi active.length) now
  let st := dsWrite st "ALARM_UNACK_COUNT" (.vi unack.length) now
  dsWrite st "HIGHEST_ALARM_PRI" (.vi highest) now

/-- Embedding of `_drive_annunciators`: beacon for any unacknowledged
alarm with action ≥ ANNUNCIATE; horn the same but suppressed while the
silence timestamp stands, re-armed by a strictly newer activation.
(Python tests the silence attribute for truthiness, so a stored 0.0 counts
as no silence.) -/
def driveAnnunciators (now : ℚ) (ss : SafetyState) (st : Store) :
    SafetyState × Store :=
  let unack := unackAlarms ss
  let hasAnnunciate := unack.any (fun t => decide (alarmAction t ≥ 1))
  let st1 := dsWrite st "DO_ALARM_BEACON" (.vb hasAnnunciate) now
  let silenced :=
    match ss.hornSilenceTime with
    | some x => decide (x ≠ 0)
    | Option.none => false
  if silenced then
    let silT := match ss.hornSilenceTime with
                | some x => x
                | Option.none => 0
    let newest := (unack.map (fun t => (ss.alarms t).timestamp)).foldl max 0
    if newest > silT then
      ({ ss with hornSilenceTime := Option.none },
       dsWrite st1 "DO_ALARM_HORN" (.vb hasAnnunciate) now)
    else (ss, dsWrite st1 "DO_ALARM_HORN" (.vb false) now)
  else (ss, dsWrite st1 "DO_ALARM_HORN" (.vb hasAnnunciate) now)

/-- Embedding of `SafetyManager.execute`: clear the per-cycle request
flags, run the full check battery (none of which writes the store), then
publish the alarm summary and drive the annunciators. -/
def safetyExecute (sp : Setpoints) (now : ℚ) (ss : SafetyState)
    (st : Store) : SafetyState × Store :=
  let ss := { ss with shutdownRequested := false, divertRequested := false }
  let ss := checkEstop now st ss
  let ss := checkPump now st ss
  let ss := checkBsw sp now st ss
  let ss := checkPressures sp now st ss
  let ss := checkTemperatures sp now st ss
  let ss := checkFlow sp now st ss
  let ss := checkDivertValve sp now st ss
  let ss := checkSampler now st ss
  let ss := checkAirEliminator now st ss
  let st := updateAlarmSummary now ss st
  driveAnnunciators now ss st

/-- Private state of `Sampler`. -/
structure SamplerState where
  lastGrabTime : ℚ
  grabCount : ℕ
  totalMl : ℚ
  solenoidOnTime : ℚ
  solenoidActive : Bool
  mixRunning : Bool
deriving DecidableEq, Repr

/-- Fresh sampler state. -/
def samplerInit : SamplerState where
  lastGrabTime := 0
  grabCount := 0
  totalMl := 0
  solenoidOnTime := 0
  solenoidActive := false
  mixRunning := false

/-- Embedding of `Sampler._set_solenoid`. -/
def samplerSetSol (turnOn : Bool) (now : ℚ) (s : SamplerState) (st : Store) :
    SamplerState × Store :=
  ((if ¬turnOn then { s with solenoidActive := false } else s),
   dsWrite st "DO_SAMPLE_SOL" (.vb turnOn) now)

/-- Embedding of `Sampler._take_grab`. -/
def samplerTakeGrab (sp : Setpoints) (now : ℚ) (s : SamplerState)
    (st : Store) : SamplerState × Store :=
  let r := samplerSetSol true now s st
  let s1 := { r.1 with solenoidOnTime := now, solenoidActive := true,
                       lastGrabTime := now, grabCount := r.1.grabCount + 1,
                       totalMl := r.1.totalMl + sp.sample_volume_ml }
  let st1 := dsWrite r.2 "SAMPLE_TOTAL_GRABS" (.vi s1.grabCount) now
  (s1, dsWrite st1 "SAMPLE_TOTAL_ML" (.vf (rnd 1 s1.totalMl)) now)

/-- Python float modulo for a positive modulus. -/
def qmod (a b : ℚ) : ℚ := a - b * ⌊a / b⌋

/-- Embedding of `Sampler._manage_mixing`: the mixing pump runs for
`sample_mix_time_sec` at the start of every 5-minute window. -/
def samplerManageMixing (sp : Setpoints) (now : ℚ) (s : SamplerState)
    (st : Store) : SamplerState × Store :=
  let shouldMix := qmod now 300 < sp.sample_mix_time_sec
  if shouldMix ≠ s.mixRunning then
    ({ s with mixRunning := shouldMix },
     dsWrite st "DO_SAMPLE_MIX_PUMP" (.vb shouldMix) now)
  else (s, st)

/-- Embedding of `Sampler.execute`: only sample in RUNNING with the pot
level normal and positive flow; flow-weighted grabs at `sample_rate_sec`
intervals with a 500 ms solenoid pulse; periodic mixing. -/
def samplerExecute (sp : Setpoints) (now : ℚ) (state : LACTState)
    (s : SamplerState) (st : Store) : SamplerState × Store :=
  if state ≠ LACTState.RUNNING then samplerSetSol false now s st
  else if (dsRead st "DI_SAMPLE_POT_HI").truthy then samplerSetSol false now s st
  else if (dsRead st "FLOW_RATE_BPH").toQ ≤ 0 then (s, st)
  else
    let r1 := if now - s.lastGrabTime ≥ sp.sample_rate_sec then
                samplerTakeGrab sp now s st
              else (s, st)
    let r2 := if r1.1.solenoidActive then
                if now - r1.1.solenoidOnTime ≥ 1/2 then
                  samplerSetSol false now r1.1 r1.2
                else r1
              else r1
    samplerManageMixing sp now r2.1 r2.2

/-- Private state of `DivertValve` (the last commanded value, `None`
before the first scan, and the command-change time). -/
structure DivertState where
  lastCmd : Option Value
  cmdChangeTime : ℚ
deriving DecidableEq, Repr

/-- Fresh divert-valve supervisor state. -/
def divertInit : DivertState where
  lastCmd := Option.none
  cmdChangeTime := 0

/-- Embedding of `DivertValve.execute`: track command changes and publish
the derived position string. -/
def divertExecute (now : ℚ) (dv : DivertState) (st : Store) :
    DivertState × Store :=
  let cmd := dsRead st "DO_DIVERT_CMD"
  let atSales := (dsRead st "DI_DIVERT_SALES").truthy
  let atDivert := (dsRead st "DI_DIVERT_DIVERT").truthy
  let dv1 := if dv.lastCmd ≠ some cmd then
               { dv with cmdChangeTime := now, lastCmd := some cmd }
             else dv
  let position :=
    if cmd.truthy then (if atDivert then "DIVERT" else "TRANSIT_TO_DIVERT")
    else (if atSales then "SALES" else "TRANSIT_TO_SALES")
  let position := if atSales ∧ atDivert then "FAULT_BOTH_LIMITS" else position
  (dv1, dsWrite st "DIVERT_VALVE_POS" (.vs position) now)

/-- Embedding of `PumpControl.execute`: latch the lockout on an overload
trip with the command asserted, and suppress the pump-start output while
the restart lockout has not elapsed. -/
def pumpExecute (sp : Setpoints) (now : ℚ) (p : PumpState) (st : Store) :
    PumpState × Store :=
  let pumpCmd := (dsRead st "DO_PUMP_START").truthy
  let pumpOverload := (dsRead st "DI_PUMP_OVERLOAD").truthy
  let r1 := if pumpOverload ∧ pumpCmd then
              ({ p with lastTripTime := now, lockedOut := true },
               dsWrite st "DO_PUMP_START" (.vb false) now)
            else (p, st)
  if r1.1.lockedOut then
    if now - r1.1.lastTripTime < sp.pump_restart_lockout_sec then
      (r1.1, dsWrite r1.2 "DO_PUMP_START" (.vb false) now)
    else ({ r1.1 with lockedOut := false }, r1.2)
  else r1

/-- Private state of `BSWMonitor`. -/
structure BswState where
  readings : List ℚ
  divertTimerStart : ℚ
  divertPending : Bool
deriving DecidableEq, Repr

/-- Fresh BS&W monitor state. -/
def bswInit : BswState where
  readings := []
  divertTimerStart := 0
  divertPending := false

/-- The divert-reason text (Python formats `f"BS&W {avg:.2f}%"`; the exact
text is presentation-only and no claim depends on it). -/
def divertReasonStr (avg : ℚ) : String :=
  "BS&W " ++ toString (rnd 2 avg) ++ "%"

/-- Embedding of `BSWMonitor.execute`: range validation (out-of-range
readings republish the raw value with BAD quality), a 10-sample rolling
mean, and the divert debounce timer. -/
def bswExecute (sp : Setpoints) (now : ℚ) (b : BswState) (st : Store) :
    BswState × Store :=
  let raw := (dsRead st "AI_BSW_PROBE").toQ
  if raw < -(1/10) ∨ raw > 11/2 then
    let st1 := dsWriteQ st "AI_BSW_PROBE" (.vf raw) now "BAD"
    (b, dsWrite st1 "BSW_PCT" (.vf raw) now)
  else
    let readings0 := b.readings ++ [raw]
    let readings := if readings0.length > 10 then readings0.tail else readings0
    let avg := qsum readings / (readings.length : ℚ)
    let st1 := dsWrite st "BSW_PCT" (.vf (rnd 3 avg)) now
    if avg ≥ sp.bsw_divert_pct then
      if ¬b.divertPending then
        ({ readings := readings, divertTimerStart := now,
           divertPending := true }, st1)
      else if now - b.divertTimerStart ≥ sp.bsw_divert_delay_sec then
        ({ b with readings := readings },
         dsWrite st1 "DIVERT_REASON" (.vs (divertReasonStr avg)) now)
      else ({ b with readings := readings }, st1)
    else ({ b with readings := readings, divertPending := false }, st1)

/-- Embedding of `PressureMonitor.execute`: publish the two backpressure
setpoints. -/
def pressureExecute (sp : Setpoints) (now : ℚ) (st : Store) : Store :=
  let st := dsWrite st "AO_BP_SALES_SP" (.vf sp.backpressure_sales_psi) now
  dsWrite st "AO_BP_DIVERT_SP" (.vf sp.backpressure_divert_psi) now

/-- One backend read: the delivered value, or a failure (`good = false`),
which `IOHandler.read_inputs` converts to a type-appropriate zero with BAD
quality. -/
structure InSig (α : Type) where
  val : α
  good : Bool
deriving DecidableEq, Repr

/-- One scan's worth of backend input readings, one field per input point
of the `IOMap` (analog values are raw 12-bit ADC counts). -/
structure Inputs where
  diInletVlvOpen : InSig Bool
  diInletVlvClosed : InSig Bool
  diStrainerHiDp : InSig Bool
  diPumpRunning : InSig Bool
  diPumpOverload : InSig Bool
  diDivertSales : InSig Bool
  diDivertDivert : InSig Bool
  diSamplePotHi : InSig Bool
  diSamplePotLo : InSig Bool
  diProverVlvOpen : InSig Bool
  diAirElimFloat : InSig Bool
  diOutletVlvOpen : InSig Bool
  diEstop : InSig Bool
  aiInletPress : InSig ℤ
  aiLoopHiPress : InSig ℤ
  aiStrainerDp : InSig ℤ
  aiBswProbe : InSig ℤ
  aiMeterTemp : InSig ℤ
  aiTestThermo : InSig ℤ
  aiOutletPress : InSig ℤ
  piMeterPulse : InSig ℤ

/-- Embedding of `IOHandler._scale_input`. -/
def scaleInput (raw : ℤ) (rawMin rawMax engMin engMax : ℚ) : ℚ :=
  if rawMax - rawMin = 0 then engMin
  else engMin + ((raw : ℚ) - rawMin) / (rawMax - rawMin) * (engMax - engMin)

/-- A digital-input write of `read_inputs` (False with BAD quality on a
backend failure). -/
def writeDI (st : Store) (tag : String) (s : InSig Bool) (now : ℚ) : Store :=
  dsWriteQ st tag (.vb (if s.good then s.val else false)) now
    (if s.good then "GOOD" else "BAD")

/-- An analog-input write of `read_inputs`: scaled and rounded to 3
decimals, or 0.0 with BAD quality on failure. -/
def writeAI (st : Store) (tag : String) (s : InSig ℤ)
    (rawMin rawMax engMin engMax : ℚ) (now : ℚ) : Store :=
  dsWriteQ st tag
    (.vf (if s.good then rnd 3 (scaleInput s.val rawMin rawMax engMin engMax)
          else 0)) now
    (if s.good then "GOOD" else "BAD")

/-- A pulse-input write of `read_inputs`. -/
def writePI (st : Store) (tag : String) (s : InSig ℤ) (now : ℚ) : Store :=
  dsWriteQ st tag (.vi (if s.good then s.val else 0)) now
    (if s.good then "GOOD" else "BAD")

/-- Embedding of `IOHandler.read_inputs` over the configured `IOMap`:
digital inputs, then analog inputs with their scaling ranges
(12-bit, 0–4095 raw), then the pulse input. -/
def readInputs (inp : Inputs) (now : ℚ) (st : Store) : Store :=
  let st := writeDI st "DI_INLET_VLV_OPEN" inp.diInletVlvOpen now
  let st := writeDI st "DI_INLET_VLV_CLOSED" inp.diInletVlvClosed now
  let st := writeDI st "DI_STRAINER_HI_DP" inp.diStrainerHiDp now
  let st := writeDI st "DI_PUMP_RUNNING" inp.diPumpRunning now
  let st := writeDI st "DI_PUMP_OVERLOAD" inp.diPumpOverload now
  let st := writeDI st "DI_DIVERT_SALES" inp.diDivertSales now
  let st := writeDI st "DI_DIVERT_DIVERT" inp.diDivertDivert now
  let st := writeDI st "DI_SAMPLE_POT_HI" inp.diSamplePotHi now
  let st := writeDI st "DI_SAMPLE_POT_LO" inp.diSamplePotLo now
  let st := writeDI st "DI_PROVER_VLV_OPEN" inp.diProverVlvOpen now
  let st := writeDI st "DI_AIR_ELIM_FLOAT" inp.diAirElimFloat now
  let st := writeDI st "DI_OUTLET_VLV_OPEN" inp.diOutletVlvOpen now
  let st := writeDI st "DI_ESTOP" inp.diEstop now
  let st := writeAI st "AI_INLET_PRESS" inp.aiInletPress 0 4095 0 300 now
  let st := writeAI st "AI_LOOP_HI_PRESS" inp.aiLoopHiPress 0 4095 0 300 now
  let st := writeAI st "AI_STRAINER_DP" inp.aiStrainerDp 0 4095 0 50 now
  let st := writeAI st "AI_BSW_PROBE" inp.aiBswProbe 0 4095 0 5 now
  let st := writeAI st "AI_METER_TEMP" inp.aiMeterTemp 0 4095 (-20) 200 now
  let st := writeAI st "AI_TEST_THERMO" inp.aiTestThermo 0 4095 (-20) 200 now
  let st := writeAI st "AI_OUTLET_PRESS" inp.aiOutletPress 0 4095 0 300 now
  writePI st "PI_METER_PULSE" inp.piMeterPulse now

/-- The tag names `read_inputs` writes. -/
def inputTagList : List String :=
  ["DI_INLET_VLV_OPEN", "DI_INLET_VLV_CLOSED", "DI_STRAINER_HI_DP",
   "DI_PUMP_RUNNING", "DI_PUMP_OVERLOAD", "DI_DIVERT_SALES",
   "DI_DIVERT_DIVERT", "DI_SAMPLE_POT_HI", "DI_SAMPLE_POT_LO",
   "DI_PROVER_VLV_OPEN", "DI_AIR_ELIM_FLOAT", "DI_OUTLET_VLV_OPEN",
   "DI_ESTOP", "AI_INLET_PRESS", "AI_LOOP_HI_PRESS", "AI_STRAINER_DP",
   "AI_BSW_PROBE", "AI_METER_TEMP", "AI_TEST_THERMO", "AI_OUTLET_PRESS",
   "PI_METER_PULSE"]

/-- Phase 3 of `_execute_scan`: derive a transition request from the
safety evaluator's flags (shutdown preempts divert; divert only from
RUNNING). -/
def phase3sm (saf : SafetyState) (m : SMState) : SMState :=
  if saf.shutdownRequested then
    if m.state ≠ LACTState.E_STOP ∧ m.state ≠ LACTState.SHUTDOWN ∧
        m.state ≠ LACTState.IDLE then
      { m with request := some LACTState.SHUTDOWN }
    else m
  else if saf.divertRequested then
    if m.state = LACTState.RUNNING then
      { m with request := some LACTState.DIVERT }
    else m
  else m

/-- Complete mutable state of the controller: the tag store plus every
module's private state (the pressure and temperature modules hold none). -/
structure SysState where
  store : Store
  safety : SafetyState
  sm : SMState
  flow : FlowState
  bsw : BswState
  sampler : SamplerState
  divert : DivertState
  pump : PumpState
  proving : ProvState

/-- Embedding of `PLCController._execute_scan`, phases 1–5 (phase 6,
`write_outputs`, only copies tag values to the backend and does not change
the store; the scan counter is bookkeeping).  All `time.time()` calls of
the cycle are modelled by the single instant `now`. -/
def executeScan (expFn : ℚ → ℚ) (sp : Setpoints) (inp : Inputs) (now : ℚ)
    (sys : SysState) : SysState :=
  -- Phase 1: read inputs
  let st := readInputs inp now sys.store
  -- Phase 2: safety interlocks
  let rs := safetyExecute sp now sys.safety st
  let saf := rs.1
  let st := rs.2
  -- Phase 3: safety actions
  let sm := phase3sm saf sys.sm
  -- Phase 4: state machine
  let rsm := smExecute sp now sm st
  let sm := rsm.1
  let st := rsm.2
  let current := sm.state
  -- Phase 5: process modules in fixed order
  let st := pressureExecute sp now st
  let st := temperatureExecute expFn sp now st
  let rf := flowExecute sp now sys.flow st
  let st := rf.2
  let rb := bswExecute sp now sys.bsw st
  let st := rb.2
  let rsam :=
    if current = LACTState.RUNNING ∨ current = LACTState.DIVERT then
      samplerExecute sp now current sys.sampler st
    else (sys.sampler, st)
  let st := rsam.2
  let rp :=
    if current = LACTState.PROVING then provingExecute sp now sys.proving st
    else (sys.proving, st)
  let st := rp.2
  let rd := divertExecute now sys.divert st
  let st := rd.2
  let rpu := pumpExecute sp now sys.pump st
  { store := rpu.2, safety := saf, sm := sm, flow := rf.1, bsw := rb.1,
    sampler := rsam.1, divert := rd.1, pump := rpu.1, proving := rp.1 }

theorem dsRead_dsWriteQ_ne (st : Store) (tag t : String) (v : Value)
    (now : ℚ) (q : String) (h : t ≠ tag) :
    dsRead (dsWriteQ st tag v now q) t = dsRead st t := by
  rw [dsRead_dsWriteQ, if_neg h]

theorem dsRead_dsWrite_ne (st : Store) (tag t : String) (v : Value)
    (now : ℚ) (h : t ≠ tag) :
    dsRead (dsWrite st tag v now) t = dsRead st t := by
  rw [dsRead_dsWrite, if_neg h]

/-- Frame: `read_inputs` writes only the configured input tags. -/
theorem readInputs_frame (inp : Inputs) (now : ℚ) (st : Store) (k : String)
    (hk : ¬k ∈ inputTagList) :
    dsRead (readInputs inp now st) k = dsRead st k := by
  simp only [inputTagList, List.mem_cons, List.not_mem_nil, or_false,
    not_or] at hk
  obtain ⟨h1, h2, h3, h4, h5, h6, h7, h8, h9, h10, h11, h12, h13, h14, h15,
    h16, h17, h18, h19, h20, h21⟩ := hk
  unfold readInputs writeDI writeAI writePI
  dsimp only
  rw [dsRead_dsWriteQ_ne _ _ _ _ _ _ h21, dsRead_dsWriteQ_ne _ _ _ _ _ _ h20,
    dsRead_dsWriteQ_ne _ _ _ _ _ _ h19, dsRead_dsWriteQ_ne _ _ _ _ _ _ h18,
    dsRead_dsWriteQ_ne _ _ _ _ _ _ h17, dsRead_dsWriteQ_ne _ _ _ _ _ _ h16,
    dsRead_dsWriteQ_ne _ _ _ _ _ _ h15, dsRead_dsWriteQ_ne _ _ _ _ _ _ h14,
    dsRead_dsWriteQ_ne _ _ _ _ _ _ h13, dsRead_dsWriteQ_ne _ _ _ _ _ _ h12,
    dsRead_dsWriteQ_ne _ _ _ _ _ _ h11, dsRead_dsWriteQ_ne _ _ _ _ _ _ h10,
    dsRead_dsWriteQ_ne _ _ _ _ _ _ h9, dsRead_dsWriteQ_ne _ _ _ _ _ _ h8,
    dsRead_dsWriteQ_ne _ _ _ _ _ _ h7, dsRead_dsWriteQ_ne _ _ _ _ _ _ h6,
    dsRead_dsWriteQ_ne _ _ _ _ _ _ h5, dsRead_dsWriteQ_ne _ _ _ _ _ _ h4,
    dsRead_dsWriteQ_ne _ _ _ _ _ _ h3, dsRead_dsWriteQ_ne _ _ _ _ _ _ h2,
    dsRead_dsWriteQ_ne _ _ _ _ _ _ h1]

/-- The tags written by `SafetyManager.execute` (summary and
annunciators; the check battery itself never writes the store). -/
def safetyTagList : List String :=
  ["ALARM_ACTIVE_COUNT", "ALARM_UNACK_COUNT", "HIGHEST_ALARM_PRI",
   "DO_ALARM_BEACON", "DO_ALARM_HORN"]

/-- Frame: `SafetyManager.execute` writes only its five summary and
annunciator tags. -/
theorem safetyExecute_frame (sp : Setpoints) (now : ℚ) (ss : SafetyState)
    (st : Store) (k : String) (hk : ¬k ∈ safetyTagList) :
    dsRead (safetyExecute sp now ss st).2 k = dsRead st k := by
  simp only [safetyTagList, List.mem_cons, List.not_mem_nil, or_false,
    not_or] at hk
  obtain ⟨h1, h2, h3, h4, h5⟩ := hk
  unfold safetyExecute updateAlarmSummary driveAnnunciators
  dsimp only
  split
  · split
    all_goals
      dsimp only
      rw [dsRead_dsWrite_ne _ _ _ _ _ h5, dsRead_dsWrite_ne _ _ _ _ _ h4,
        dsRead_dsWrite_ne _ _ _ _ _ h3, dsRead_dsWrite_ne _ _ _ _ _ h2,
        dsRead_dsWrite_ne _ _ _ _ _ h1]
  · dsimp only
    rw [dsRead_dsWrite_ne _ _ _ _ _ h5, dsRead_dsWrite_ne _ _ _ _ _ h4,
      dsRead_dsWrite_ne _ _ _ _ _ h3, dsRead_dsWrite_ne _ _ _ _ _ h2,
      dsRead_dsWrite_ne _ _ _ _ _ h1]

/-- Frame: the pressure monitor writes only the two backpressure
setpoints. -/
theorem pressureExecute_frame (sp : Setpoints) (now : ℚ) (st : Store)
    (k : String) (h1 : k ≠ "AO_BP_SALES_SP") (h2 : k ≠ "AO_BP_DIVERT_SP") :
    dsRead (pressureExecute sp now st) k = dsRead st k := by
  unfold pressureExecute
  dsimp only
  rw [dsRead_dsWrite_ne _ _ _ _ _ h2, dsRead_dsWrite_ne _ _ _ _ _ h1]

/-- Frame: the temperature monitor writes only CTL_FACTOR and
TEMP_CORRECTED_F. -/
theorem temperatureExecute_frame (expFn : ℚ → ℚ) (sp : Setpoints) (now : ℚ)
    (st : Store) (k : String) (h1 : k ≠ "CTL_FACTOR")
    (h2 : k ≠ "TEMP_CORRECTED_F") :
    dsRead (temperatureExecute expFn sp now st) k = dsRead st k := by
  unfold temperatureExecute
  dsimp only
  rw [dsRead_dsWrite_ne _ _ _ _ _ h2, dsRead_dsWrite_ne _ _ _ _ _ h1]

/-- Frame: flow measurement writes only its five published tags. -/
theorem flowExecute_frame (sp : Setpoints) (now : ℚ) (fs : FlowState)
    (st : Store) (k : String) (h1 : k ≠ "FLOW_RATE_BPH")
    (h2 : k ≠ "FLOW_TOTAL_BBL") (h3 : k ≠ "FLOW_NET_BBL")
    (h4 : k ≠ "BATCH_GROSS_BBL") (h5 : k ≠ "BATCH_NET_BBL") :
    dsRead (flowExecute sp now fs st).2 k = dsRead st k := by
  unfold flowExecute
  dsimp only
  rw [dsRead_dsWrite_ne _ _ _ _ _ h5, dsRead_dsWrite_ne _ _ _ _ _ h4,
    dsRead_dsWrite_ne _ _ _ _ _ h3, dsRead_dsWrite_ne _ _ _ _ _ h2,
    dsRead_dsWrite_ne _ _ _ _ _ h1]

/-- Frame: the BS&W monitor writes only the probe tag (BAD-quality
republish), BSW_PCT and DIVERT_REASON. -/
theorem bswExecute_frame (sp : Setpoints) (now : ℚ) (b : BswState)
    (st : Store) (k : String) (h1 : k ≠ "AI_BSW_PROBE") (h2 : k ≠ "BSW_PCT")
    (h3 : k ≠ "DIVERT_REASON") :
    dsRead (bswExecute sp now b st).2 k = dsRead st k := by
  unfold bswExecute
  dsimp only
  repeat' split
  all_goals simp [dsRead_dsWrite, dsRead_dsWriteQ, h1, h2, h3]

theorem samplerSetSol_frame (turnOn : Bool) (now : ℚ) (s : SamplerState)
    (st : Store) (k : String) (h1 : k ≠ "DO_SAMPLE_SOL") :
    dsRead (samplerSetSol turnOn now s st).2 k = dsRead st k := by
  unfold samplerSetSol
  exact dsRead_dsWrite_ne _ _ _ _ _ h1

theorem samplerTakeGrab_frame (sp : Setpoints) (now : ℚ) (s : SamplerState)
    (st : Store) (k : String) (h1 : k ≠ "DO_SAMPLE_SOL")
    (h3 : k ≠ "SAMPLE_TOTAL_GRABS") (h4 : k ≠ "SAMPLE_TOTAL_ML") :
    dsRead (samplerTakeGrab sp now s st).2 k = dsRead st k := by
  unfold samplerTakeGrab samplerSetSol
  dsimp only
  rw [dsRead_dsWrite_ne _ _ _ _ _ h4, dsRead_dsWrite_ne _ _ _ _ _ h3,
    dsRead_dsWrite_ne _ _ _ _ _ h1]

theorem samplerManageMixing_frame (sp : Setpoints) (now : ℚ)
    (s : SamplerState) (st : Store) (k : String)
    (h2 : k ≠ "DO_SAMPLE_MIX_PUMP") :
    dsRead (samplerManageMixing sp now s st).2 k = dsRead st k := by
  unfold samplerManageMixing
  dsimp only
  split
  · exact dsRead_dsWrite_ne _ _ _ _ _ h2
  · rfl

theorem samplerTakeGrab_active (sp : Setpoints) (now : ℚ)
    (s : SamplerState) (st : Store) :
    (samplerTakeGrab sp now s st).1.solenoidActive = true := rfl

theorem samplerTakeGrab_onTime (sp : Setpoints) (now : ℚ)
    (s : SamplerState) (st : Store) :
    (samplerTakeGrab sp now s st).1.solenoidOnTime = now := rfl

/-- Frame: the sampler writes only the solenoid, mixing pump and sample
total tags. -/
theorem samplerExecute_frame (sp : Setpoints) (now : ℚ) (state : LACTState)
    (s : SamplerState) (st : Store) (k : String) (h1 : k ≠ "DO_SAMPLE_SOL")
    (h2 : k ≠ "DO_SAMPLE_MIX_PUMP") (h3 : k ≠ "SAMPLE_TOTAL_GRABS")
    (h4 : k ≠ "SAMPLE_TOTAL_ML") :
    dsRead (samplerExecute sp now state s st).2 k = dsRead st k := by
  unfold samplerExecute
  dsimp only
  split
  · exact samplerSetSol_frame _ _ _ _ _ h1
  · split
    · exact samplerSetSol_frame _ _ _ _ _ h1
    · split
      · rfl
      · rw [samplerManageMixing_frame _ _ _ _ _ h2]
        by_cases hg : now - s.lastGrabTime ≥ sp.sample_rate_sec
        · rw [if_pos hg]
          try dsimp only
          rw [if_pos (samplerTakeGrab_active sp now s st)]
          rw [samplerTakeGrab_onTime]
          rw [if_neg (by rw [sub_self]; norm_num)]
          exact samplerTakeGrab_frame _ _ _ _ _ h1 h3 h4
        · rw [if_neg hg]
          dsimp only
          split
          · split
            · rw [samplerSetSol_frame _ _ _ _ _ h1]
            · rfl
          · rfl

/-- Frame: the proving manager writes only the prover valve command and
METER_FACTOR. -/
theorem provingExecute_frame (sp : Setpoints) (now : ℚ) (ps : ProvState)
    (st : Store) (k : String) (h1 : k ≠ "DO_PROVER_VLV_CMD")
    (h2 : k ≠ "METER_FACTOR") :
    dsRead (provingExecute sp now ps st).2 k = dsRead st k := by
  unfold provingExecute provingHandleSetup provingHandleRunning
    provingHandleCalculating provingHandleDone provingEndRun provingStartRun
  dsimp only
  repeat' split
  all_goals simp [dsRead_dsWrite, h1, h2]

/-- Frame: the divert-valve supervisor writes only the position string. -/
theorem divertExecute_frame (now : ℚ) (dv : DivertState) (st : Store)
    (k : String) (h1 : k ≠ "DIVERT_VALVE_POS") :
    dsRead (divertExecute now dv st).2 k = dsRead st k := by
  unfold divertExecute
  dsimp only
  rw [dsRead_dsWrite_ne _ _ _ _ _ h1]

/-- Frame: the pump supervisor writes only DO_PUMP_START. -/
theorem pumpExecute_frame (sp : Setpoints) (now : ℚ) (p : PumpState)
    (st : Store) (k : String) (h1 : k ≠ "DO_PUMP_START") :
    dsRead (pumpExecute sp now p st).2 k = dsRead st k := by
  unfold pumpExecute
  dsimp only
  repeat' split
  all_goals simp [dsRead_dsWrite, h1]

/-- The pump supervisor either leaves DO_PUMP_START alone or writes it
false. -/
theorem pumpExecute_pump_start (sp : Setpoints) (now : ℚ) (p : PumpState)
    (st : Store) :
    dsRead (pumpExecute sp now p st).2 "DO_PUMP_START" = Value.vb false ∨
    dsRead (pumpExecute sp now p st).2 "DO_PUMP_START" =
      dsRead st "DO_PUMP_START" := by
  unfold pumpExecute
  dsimp only
  repeat' split
  all_goals
    first
      | (left; rw [dsRead_dsWrite]; simp)
      | (right; rfl)

/-- Frame: a `_transition` call touches only PREV_STATE and LACT_STATE. -/
theorem smTransition_frame (now : ℚ) (m : SMState) (st : Store)
    (t : LACTState) (k : String) (h1 : k ≠ "PREV_STATE")
    (h2 : k ≠ "LACT_STATE") :
    dsRead (smTransition now m st t).2.1 k = dsRead st k := by
  unfold smTransition
  dsimp only
  split
  · dsimp only
    rw [dsRead_dsWrite_ne _ _ _ _ _ h2, dsRead_dsWrite_ne _ _ _ _ _ h1]
  · rfl

/-- The tags written by the E_STOP state handler. -/
def estopKeyList : List String :=
  ["DO_PUMP_START", "DO_DIVERT_CMD", "DO_SAMPLE_SOL", "DO_SAMPLE_MIX_PUMP",
   "DO_PROVER_VLV_CMD", "DO_STATUS_GREEN", "DO_ALARM_BEACON",
   "DO_ALARM_HORN"]

/-- A scan of the state machine that starts already in E_STOP with no
pending request and DI_ESTOP still asserted: the machine configuration is
unchanged, the handler has driven the full safe output pattern, and no
other tag is touched. -/
theorem smExecute_estop_steady (sp : Setpoints) (now : ℚ) (m : SMState)
    (st : Store) (hstate : m.state = LACTState.E_STOP)
    (hreq : m.request = Option.none)
    (hdi : dsRead st "DI_ESTOP" = Value.vb true) :
    (smExecute sp now m st).1 = m ∧
    dsRead (smExecute sp now m st).2 "DO_PUMP_START" = Value.vb false ∧
    dsRead (smExecute sp now m st).2 "DO_DIVERT_CMD" = Value.vb true ∧
    dsRead (smExecute sp now m st).2 "DO_SAMPLE_SOL" = Value.vb false ∧
    dsRead (smExecute sp now m st).2 "DO_SAMPLE_MIX_PUMP" = Value.vb false ∧
    dsRead (smExecute sp now m st).2 "DO_PROVER_VLV_CMD" = Value.vb false ∧
    dsRead (smExecute sp now m st).2 "DO_STATUS_GREEN" = Value.vb false ∧
    dsRead (smExecute sp now m st).2 "DO_ALARM_BEACON" = Value.vb true ∧
    dsRead (smExecute sp now m st).2 "DO_ALARM_HORN" = Value.vb true ∧
    (∀ k : String, ¬k ∈ estopKeyList →
      dsRead (smExecute sp now m st).2 k = dsRead st k) := by
  have h1 : smReqPhase now m st = (m, st, false) := by
    unfold smReqPhase
    rw [hreq]
  have h2 : smEstopPhase now (m, st, false) = (m, st, false) := by
    unfold smEstopPhase
    dsimp only
    rw [if_neg]
    intro hc
    exact hc.2 hstate
  have h3 : smExecute sp now m st = handleEstop now m st := by
    rw [smExecute_eq, h1, h2]
    simp [smDispatch, hstate]
  rw [h3]
  unfold handleEstop
  dsimp only
  have hdi8 : dsRead
      (dsWrite (dsWrite (dsWrite (dsWrite (dsWrite (dsWrite (dsWrite
        (dsWrite st "DO_PUMP_START" (Value.vb false) now)
        "DO_DIVERT_CMD" (Value.vb true) now)
        "DO_SAMPLE_SOL" (Value.vb false) now)
        "DO_SAMPLE_MIX_PUMP" (Value.vb false) now)
        "DO_PROVER_VLV_CMD" (Value.vb false) now)
        "DO_STATUS_GREEN" (Value.vb false) now)
        "DO_ALARM_BEACON" (Value.vb true) now)
        "DO_ALARM_HORN" (Value.vb true) now) "DI_ESTOP" =
      Value.vb true := by
    simp [dsRead_dsWrite, hdi]
  rw [hdi8]
  rw [if_neg (by simp [Value.truthy])]
  refine ⟨rfl, by simp [dsRead_dsWrite], by simp [dsRead_dsWrite],
    by simp [dsRead_dsWrite], by simp [dsRead_dsWrite],
    by simp [dsRead_dsWrite], by simp [dsRead_dsWrite],
    by simp [dsRead_dsWrite], by simp [dsRead_dsWrite], ?_⟩
  intro k hk
  simp only [estopKeyList, List.mem_cons, List.not_mem_nil, or_false,
    not_or] at hk
  obtain ⟨g1, g2, g3, g4, g5, g6, g7, g8⟩ := hk
  simp [dsRead_dsWrite, g1, g2, g3, g4, g5, g6, g7, g8]

/-- Any state-machine scan that begins outside E_STOP while DI_ESTOP reads
true ends in E_STOP with the handler skipped: only the PREV_STATE and
LACT_STATE bookkeeping tags are written. -/
theorem smExecute_estop_forced (sp : Setpoints) (now : ℚ) (m : SMState)
    (st : Store) (hstate : m.state ≠ LACTState.E_STOP)
    (hdi : dsRead st "DI_ESTOP" = Value.vb true) :
    (smExecute sp now m st).1.state = LACTState.E_STOP ∧
    (∀ k : String, k ≠ "PREV_STATE" → k ≠ "LACT_STATE" →
      dsRead (smExecute sp now m st).2 k = dsRead st k) := by
  rw [smExecute_eq]
  -- after the request phase the store differs from st only on the two
  -- bookkeeping tags, and DI_ESTOP still reads true
  have hp1frame : ∀ k : String, k ≠ "PREV_STATE" → k ≠ "LACT_STATE" →
      dsRead (smReqPhase now m st).2.1 k = dsRead st k := by
    intro k g1 g2
    unfold smReqPhase
    cases hr : m.request with
    | none => rfl
    | some tgt =>
      dsimp only
      exact smTransition_frame now m st tgt k g1 g2
  have hdi1 : dsRead (smReqPhase now m st).2.1 "DI_ESTOP" = Value.vb true := by
    rw [hp1frame "DI_ESTOP" (by decide) (by decide), hdi]
  by_cases hm1 : (smReqPhase now m st).1.state = LACTState.E_STOP
  · -- the pending request already moved the machine into E_STOP, so the
    -- override does not fire but the transition flag is set
    have hflag : (smReqPhase now m st).2.2 = true := by
      rcases smReqPhase_spec now m st with ⟨_, hs, _⟩ | ⟨hf, _⟩
      · exact absurd (hs ▸ hm1) hstate
      · exact hf
    have h2 : smEstopPhase now (smReqPhase now m st) =
        smReqPhase now m st := by
      unfold smEstopPhase
      rw [if_neg]
      intro hc
      exact hc.2 hm1
    rw [h2, if_pos hflag]
    exact ⟨hm1, hp1frame⟩
  · -- the override fires and forces E_STOP
    have hmem : LACTState.E_STOP ∈
        transitionsFrom (smReqPhase now m st).1.state :=
      estop_mem_transitions _ hm1
    have h2 : smEstopPhase now (smReqPhase now m st) =
        smTransition now (smReqPhase now m st).1 (smReqPhase now m st).2.1
          LACTState.E_STOP := by
      unfold smEstopPhase
      rw [if_pos]
      constructor
      · rw [hdi1]
        rfl
      · exact hm1
    have htr := smTransition_mem now (smReqPhase now m st).1
      (smReqPhase now m st).2.1 LACTState.E_STOP hmem
    rw [h2, if_pos htr.2]
    refine ⟨htr.1, ?_⟩
    intro k g1 g2
    rw [smTransition_frame _ _ _ _ k g1 g2]
    exact hp1frame k g1 g2

/-- The DI_ESTOP value placed in the store by `read_inputs`. -/
theorem readInputs_estop (inp : Inputs) (now : ℚ) (st : Store) :
    dsRead (readInputs inp now st) "DI_ESTOP" =
      Value.vb (if inp.diEstop.good then inp.diEstop.val else false) := by
  simp [readInputs, writeDI, writeAI, writePI, dsRead_dsWriteQ]

/-- The DI_PUMP_OVERLOAD value placed in the store by `read_inputs`. -/
theorem readInputs_overload (inp : Inputs) (now : ℚ) (st : Store) :
    dsRead (readInputs inp now st) "DI_PUMP_OVERLOAD" =
      Value.vb (if inp.diPumpOverload.good then inp.diPumpOverload.val
                else false) := by
  simp [readInputs, writeDI, writeAI, writePI, dsRead_dsWriteQ]

/-- The DI_SAMPLE_POT_HI value placed in the store by `read_inputs`. -/
theorem readInputs_potHi (inp : Inputs) (now : ℚ) (st : Store) :
    dsRead (readInputs inp now st) "DI_SAMPLE_POT_HI" =
      Value.vb (if inp.diSamplePotHi.good then inp.diSamplePotHi.val
                else false) := by
  simp [readInputs, writeDI, writeAI, writePI, dsRead_dsWriteQ]

/-- The phase-3 request derivation never touches a machine already in
E_STOP (both the shutdown branch, which excludes E_STOP, and the divert
branch, which requires RUNNING, leave it alone). -/
theorem phase3_estop (saf : SafetyState) (m : SMState)
    (hstate : m.state = LACTState.E_STOP) :
    phase3sm saf m = m := by
  unfold phase3sm
  split
  · rw [if_neg]
    intro hc
    exact hc.1 hstate
  · split
    · rw [if_neg]
      rw [hstate]
      intro hc
      cases hc
    · rfl

/-- Tags that the always-run phase-5 modules (pressure, temperature, flow,
BS&W, divert supervisor, pump supervisor) may write. -/
def phase5KeyList : List String :=
  ["AO_BP_SALES_SP", "AO_BP_DIVERT_SP", "CTL_FACTOR", "TEMP_CORRECTED_F",
   "FLOW_RATE_BPH", "FLOW_TOTAL_BBL", "FLOW_NET_BBL", "BATCH_GROSS_BBL",
   "BATCH_NET_BBL", "AI_BSW_PROBE", "BSW_PCT", "DIVERT_REASON",
   "DIVERT_VALVE_POS", "DO_PUMP_START"]

/-- Frame through the always-run phase-5 modules. -/
theorem phase5_frame (expFn : ℚ → ℚ) (sp : Setpoints) (now : ℚ)
    (fs : FlowState) (b : BswState) (dv : DivertState) (p : PumpState)
    (st : Store) (k : String) (hk : ¬k ∈ phase5KeyList) :
    dsRead (pumpExecute sp now p (divertExecute now dv (bswExecute sp now b
      (flowExecute sp now fs (temperatureExecute expFn sp now
        (pressureExecute sp now st))).2).2).2).2 k = dsRead st k := by
  simp only [phase5KeyList, List.mem_cons, List.not_mem_nil, or_false,
    not_or] at hk
  obtain ⟨g1, g2, g3, g4, g5, g6, g7, g8, g9, g10, g11, g12, g13, g14⟩ := hk
  rw [pumpExecute_frame _ _ _ _ _ g14, divertExecute_frame _ _ _ _ g13,
    bswExecute_frame _ _ _ _ _ g10 g11 g12,
    flowExecute_frame _ _ _ _ _ g5 g6 g7 g8 g9,
    temperatureExecute_frame _ _ _ _ _ g3 g4,
    pressureExecute_frame _ _ _ _ g1 g2]

/-- An already-false pump-start command stays false through the always-run
phase-5 modules. -/
theorem phase5_pump_start_false (expFn : ℚ → ℚ) (sp : Setpoints) (now : ℚ)
    (fs : FlowState) (b : BswState) (dv : DivertState) (p : PumpState)
    (st : Store) (h : dsRead st "DO_PUMP_START" = Value.vb false) :
    dsRead (pumpExecute sp now p (divertExecute now dv (bswExecute sp now b
      (flowExecute sp now fs (temperatureExecute expFn sp now
        (pressureExecute sp now st))).2).2).2).2 "DO_PUMP_START" =
      Value.vb false := by
  have hmid : dsRead (divertExecute now dv (bswExecute sp now b
      (flowExecute sp now fs (temperatureExecute expFn sp now
        (pressureExecute sp now st))).2).2).2 "DO_PUMP_START" =
      Value.vb false := by
    rw [divertExecute_frame _ _ _ _ (by decide),
      bswExecute_frame _ _ _ _ _ (by decide) (by decide) (by decide),
      flowExecute_frame _ _ _ _ _ (by decide) (by decide) (by decide)
        (by decide) (by decide),
      temperatureExecute_frame _ _ _ _ _ (by decide) (by decide),
      pressureExecute_frame _ _ _ _ (by decide) (by decide)]
    exact h
  rcases pumpExecute_pump_start sp now p (divertExecute now dv
      (bswExecute sp now b (flowExecute sp now fs (temperatureExecute expFn
        sp now (pressureExecute sp now st))).2).2).2 with hc | hc
  · exact hc
  · rw [hc]
    exact hmid

/-- C1 amended.  A scan that begins with the state machine already in
E_STOP, no pending operator request, and DI_ESTOP delivered true ends with
state E_STOP and the full safe output pattern: pump off, divert asserted,
sampler solenoid and mixing pump off, prover valve off, beacon and horn
on.  (On the single scan that first enters E_STOP the handler is skipped
and the outputs may retain their previous values — see the
counterexample.) -/
theorem C1_estop_steady_safe_outputs (expFn : ℚ → ℚ) (sp : Setpoints)
    (inp : Inputs) (now : ℚ) (sys : SysState)
    (hstate : sys.sm.state = LACTState.E_STOP)
    (hreq : sys.sm.request = Option.none)
    (hval : inp.diEstop.val = true) (hgood : inp.diEstop.good = true) :
    (executeScan expFn sp inp now sys).sm.state = LACTState.E_STOP ∧
    dsRead (executeScan expFn sp inp now sys).store "DO_PUMP_START" =
      Value.vb false ∧
    dsRead (executeScan expFn sp inp now sys).store "DO_DIVERT_CMD" =
      Value.vb true ∧
    dsRead (executeScan expFn sp inp now sys).store "DO_SAMPLE_SOL" =
      Value.vb false ∧
    dsRead (executeScan expFn sp inp now sys).store "DO_SAMPLE_MIX_PUMP" =
      Value.vb false ∧
    dsRead (executeScan expFn sp inp now sys).store "DO_PROVER_VLV_CMD" =
      Value.vb false ∧
    dsRead (executeScan expFn sp inp now sys).store "DO_ALARM_BEACON" =
      Value.vb true ∧
    dsRead (executeScan expFn sp inp now sys).store "DO_ALARM_HORN" =
      Value.vb true := by
  have hdi2 : dsRead (safetyExecute sp now sys.safety
      (readInputs inp now sys.store)).2 "DI_ESTOP" = Value.vb true := by
    rw [safetyExecute_frame _ _ _ _ _ (by decide), readInputs_estop]
    rw [hgood, hval]
    simp
  have hsm := smExecute_estop_steady sp now sys.sm
    (safetyExecute sp now sys.safety (readInputs inp now sys.store)).2
    hstate hreq hdi2
  unfold executeScan
  dsimp only
  rw [phase3_estop (safetyExecute sp now sys.safety
    (readInputs inp now sys.store)).1 sys.sm hstate]
  have hcur : (smExecute sp now sys.sm (safetyExecute sp now sys.safety
      (readInputs inp now sys.store)).2).1.state = LACTState.E_STOP := by
    rw [hsm.1, hstate]
  rw [hcur]
  simp only [reduceCtorEq, or_self, if_false, Bool.false_eq_true]
  obtain ⟨-, e1, e2, e3, e4, e5, -, e7, e8, -⟩ := hsm
  refine ⟨?_, ?_, ?_, ?_, ?_, ?_, ?_, ?_⟩
  · trivial
  · exact phase5_pump_start_false expFn sp now sys.flow sys.bsw sys.divert
      sys.pump _ e1
  · rw [phase5_frame expFn sp now sys.flow sys.bsw sys.divert sys.pump _
      "DO_DIVERT_CMD" (by decide)]
    exact e2
  · rw [phase5_frame expFn sp now sys.flow sys.bsw sys.divert sys.pump _
      "DO_SAMPLE_SOL" (by decide)]
    exact e3
  · rw [phase5_frame expFn sp now sys.flow sys.bsw sys.divert sys.pump _
      "DO_SAMPLE_MIX_PUMP" (by decide)]
    exact e4
  · rw [phase5_frame expFn sp now sys.flow sys.bsw sys.divert sys.pump _
      "DO_PROVER_VLV_CMD" (by decide)]
    exact e5
  · rw [phase5_frame expFn sp now sys.flow sys.bsw sys.divert sys.pump _
      "DO_ALARM_BEACON" (by decide)]
    exact e7
  · rw [phase5_frame expFn sp now sys.flow sys.bsw sys.divert sys.pump _
      "DO_ALARM_HORN" (by decide)]
    exact e8

/-- Phase 3 only ever changes the pending request, never the state. -/
theorem phase3_state (saf : SafetyState) (m : SMState) :
    (phase3sm saf m).state = m.state := by
  unfold phase3sm
  repeat' split
  all_goals rfl

/-- The pump supervisor is the identity when there is no overload and no
standing lockout. -/
theorem pumpExecute_no_trip (sp : Setpoints) (now : ℚ) (p : PumpState)
    (st : Store) (hov : (dsRead st "DI_PUMP_OVERLOAD").truthy = false)
    (hlock : p.lockedOut = false) :
    pumpExecute sp now p st = (p, st) := by
  unfold pumpExecute
  simp [hov, hlock]

/-- Helper for the C1/C4 counterexamples: a scan that begins outside
E_STOP with DI_ESTOP delivered true (and no pump overload or standing
lockout) ends in E_STOP — but, because the transition scan skips the state
handler and the sampler only runs in RUNNING/DIVERT, the pump-start and
sample-solenoid outputs keep whatever values they had before the scan. -/
theorem estop_trip_scan (expFn : ℚ → ℚ) (sp : Setpoints) (inp : Inputs)
    (now : ℚ) (sys : SysState)
    (hstate : sys.sm.state ≠ LACTState.E_STOP)
    (hval : inp.diEstop.val = true) (hgood : inp.diEstop.good = true)
    (hov : (if inp.diPumpOverload.good then inp.diPumpOverload.val
            else false) = false)
    (hlock : sys.pump.lockedOut = false) :
    (executeScan expFn sp inp now sys).sm.state = LACTState.E_STOP ∧
    dsRead (executeScan expFn sp inp now sys).store "DO_PUMP_START" =
      dsRead sys.store "DO_PUMP_START" ∧
    dsRead (executeScan expFn sp inp now sys).store "DO_SAMPLE_SOL" =
      dsRead sys.store "DO_SAMPLE_SOL" := by
  have hdi2 : dsRead (safetyExecute sp now sys.safety
      (readInputs inp now sys.store)).2 "DI_ESTOP" = Value.vb true := by
    rw [safetyExecute_frame _ _ _ _ _ (by decide), readInputs_estop]
    rw [hgood, hval]
    simp
  have hne : (phase3sm (safetyExecute sp now sys.safety
      (readInputs inp now sys.store)).1 sys.sm).state ≠
      LACTState.E_STOP := by
    rw [phase3_state]
    exact hstate
  have hforced := smExecute_estop_forced sp now
    (phase3sm (safetyExecute sp now sys.safety
      (readInputs inp now sys.store)).1 sys.sm)
    (safetyExecute sp now sys.safety (readInputs inp now sys.store)).2
    hne hdi2
  -- value of any untouched tag after the state-machine phase
  have hchain : ∀ k : String, k ≠ "PREV_STATE" → k ≠ "LACT_STATE" →
      ¬k ∈ safetyTagList → ¬k ∈ inputTagList →
      dsRead (smExecute sp now
        (phase3sm (safetyExecute sp now sys.safety
          (readInputs inp now sys.store)).1 sys.sm)
        (safetyExecute sp now sys.safety
          (readInputs inp now sys.store)).2).2 k = dsRead sys.store k := by
    intro k g1 g2 g3 g4
    rw [hforced.2 k g1 g2, safetyExecute_frame _ _ _ _ _ g3,
      readInputs_frame _ _ _ _ g4]
  have hovM : dsRead (smExecute sp now
      (phase3sm (safetyExecute sp now sys.safety
        (readInputs inp now sys.store)).1 sys.sm)
      (safetyExecute sp now sys.safety
        (readInputs inp now sys.store)).2).2 "DI_PUMP_OVERLOAD" =
      Value.vb false := by
    rw [hforced.2 _ (by decide) (by decide),
      safetyExecute_frame _ _ _ _ _ (by decide), readInputs_overload]
    rw [hov]
  unfold executeScan
  dsimp only
  rw [hforced.1]
  simp only [reduceCtorEq, or_self, if_false, Bool.false_eq_true]
  have hov5 : (dsRead (divertExecute now sys.divert (bswExecute sp now
      sys.bsw (flowExecute sp now sys.flow (temperatureExecute expFn sp now
        (pressureExecute sp now (smExecute sp now
          (phase3sm (safetyExecute sp now sys.safety
            (readInputs inp now sys.store)).1 sys.sm)
          (safetyExecute sp now sys.safety
            (readInputs inp now sys.store)).2).2))).2).2).2
      "DI_PUMP_OVERLOAD").truthy = false := by
    rw [divertExecute_frame _ _ _ _ (by decide),
      bswExecute_frame _ _ _ _ _ (by decide) (by decide) (by decide),
      flowExecute_frame _ _ _ _ _ (by decide) (by decide) (by decide)
        (by decide) (by decide),
      temperatureExecute_frame _ _ _ _ _ (by decide) (by decide),
      pressureExecute_frame _ _ _ _ (by decide) (by decide), hovM]
    rfl
  rw [pumpExecute_no_trip sp now sys.pump _ hov5 hlock]
  refine ⟨trivial, ?_, ?_⟩
  · rw [divertExecute_frame _ _ _ _ (by decide),
      bswExecute_frame _ _ _ _ _ (by decide) (by decide) (by decide),
      flowExecute_frame _ _ _ _ _ (by decide) (by decide) (by decide)
        (by decide) (by decide),
      temperatureExecute_frame _ _ _ _ _ (by decide) (by decide),
      pressureExecute_frame _ _ _ _ (by decide) (by decide)]
    exact hchain "DO_PUMP_START" (by decide) (by decide) (by decide)
      (by decide)
  · rw [divertExecute_frame _ _ _ _ (by decide),
      bswExecute_frame _ _ _ _ _ (by decide) (by decide) (by decide),
      flowExecute_frame _ _ _ _ _ (by decide) (by decide) (by decide)
        (by decide) (by decide),
      temperatureExecute_frame _ _ _ _ _ (by decide) (by decide),
      pressureExecute_frame _ _ _ _ (by decide) (by decide)]
    exact hchain "DO_SAMPLE_SOL" (by decide) (by decide) (by decide)
      (by decide)

/-- A healthy digital input reading false. -/
def inF : InSig Bool := ⟨false, true⟩

/-- A healthy digital input reading true. -/
def inT : InSig Bool := ⟨true, true⟩

/-- A healthy analog input of 0 raw counts. -/
def inZ : InSig ℤ := ⟨0, true⟩

/-- Backend inputs with the E-stop pressed and everything else quiet. -/
def inpEstop : Inputs where
  diInletVlvOpen := inF
  diInletVlvClosed := inF
  diStrainerHiDp := inF
  diPumpRunning := inF
  diPumpOverload := inF
  diDivertSales := inF
  diDivertDivert := inF
  diSamplePotHi := inF
  diSamplePotLo := inF
  diProverVlvOpen := inF
  diAirElimFloat := inF
  diOutletVlvOpen := inF
  diEstop := inT
  aiInletPress := inZ
  aiLoopHiPress := inZ
  aiStrainerDp := inZ
  aiBswProbe := inZ
  aiMeterTemp := inZ
  aiTestThermo := inZ
  aiOutletPress := inZ
  piMeterPulse := inZ

/-- Machine configuration in RUNNING since time 0, no pending request. -/
def mRunning : SMState where
  state := LACTState.RUNNING
  entryTime := 0
  startupStep := 0
  shutdownStep := 0
  request := Option.none

/-- Machine configuration in E_STOP since time 0, no pending request. -/
def mEstop : SMState where
  state := LACTState.E_STOP
  entryTime := 0
  startupStep := 0
  shutdownStep := 0
  request := Option.none

/-- Store holding energised pump-start and sample-solenoid commands. -/
def storeOutOn : Store :=
  dsWrite (dsWrite store0 "DO_PUMP_START" (.vb true) 0)
    "DO_SAMPLE_SOL" (.vb true) 0

/-- Full controller state: RUNNING with the pump and solenoid commanded
on, every module at its freshly constructed state. -/
def sysRunning : SysState where
  store := storeOutOn
  safety := safetyInit
  sm := mRunning
  flow := flowInit
  bsw := bswInit
  sampler := samplerInit
  divert := divertInit
  pump := pumpInit
  proving := provingInit

/-- The same configuration already sitting in E_STOP. -/
def sysEstop : SysState := { sysRunning with sm := mEstop }

/-- `_set_solenoid` publishes its argument on DO_SAMPLE_SOL. -/
theorem samplerSetSol_sol (turnOn : Bool) (now : ℚ) (s : SamplerState)
    (st : Store) :
    dsRead (samplerSetSol turnOn now s st).2 "DO_SAMPLE_SOL" =
      Value.vb turnOn := by
  unfold samplerSetSol
  rw [dsRead_dsWrite]
  simp

/-- Outside RUNNING the sampler forces the solenoid off. -/
theorem samplerExecute_sol_notRunning (sp : Setpoints) (now : ℚ)
    (state : LACTState) (s : SamplerState) (st : Store)
    (h : state ≠ LACTState.RUNNING) :
    dsRead (samplerExecute sp now state s st).2 "DO_SAMPLE_SOL" =
      Value.vb false := by
  unfold samplerExecute
  rw [if_pos h]
  exact samplerSetSol_sol false now s st

/-- With the pot-level-high input set, the sampler forces the solenoid
off even in RUNNING. -/
theorem samplerExecute_sol_potHi (sp : Setpoints) (now : ℚ)
    (s : SamplerState) (st : Store)
    (h : (dsRead st "DI_SAMPLE_POT_HI").truthy = true) :
    dsRead (samplerExecute sp now LACTState.RUNNING s st).2
      "DO_SAMPLE_SOL" = Value.vb false := by
  unfold samplerExecute
  rw [if_neg (by simp), if_pos h]
  exact samplerSetSol_sol false now s st

/-- C1 counterexample: on the scan that trips from RUNNING into E_STOP
the transition consumes the cycle (the E_STOP handler does not run), and
with the sampler not dispatched outside RUNNING/DIVERT the previously
energised DO_PUMP_START is still true at the end of the cycle, despite
DI_ESTOP being true throughout. -/
theorem C1_counterexample :
    (executeScan (fun _ => 1) defaultSetpoints inpEstop 0
        sysRunning).sm.state = LACTState.E_STOP ∧
    dsRead (executeScan (fun _ => 1) defaultSetpoints inpEstop 0
        sysRunning).store "DO_PUMP_START" = Value.vb true := by
  have h := estop_trip_scan (fun _ => 1) defaultSetpoints inpEstop 0
    sysRunning (by decide) rfl rfl rfl rfl
  exact ⟨h.1, h.2.1.trans rfl⟩

/-- Witness for the amended C1 at concrete inputs: a steady E_STOP scan
with the E-stop held ends in E_STOP with the full safe output pattern. -/
theorem C1_estop_steady_safe_outputs_witness :
    (executeScan (fun _ => 1) defaultSetpoints inpEstop 0
        sysEstop).sm.state = LACTState.E_STOP ∧
    dsRead (executeScan (fun _ => 1) defaultSetpoints inpEstop 0
        sysEstop).store "DO_PUMP_START" = Value.vb false ∧
    dsRead (executeScan (fun _ => 1) defaultSetpoints inpEstop 0
        sysEstop).store "DO_DIVERT_CMD" = Value.vb true ∧
    dsRead (executeScan (fun _ => 1) defaultSetpoints inpEstop 0
        sysEstop).store "DO_SAMPLE_SOL" = Value.vb false ∧
    dsRead (executeScan (fun _ => 1) defaultSetpoints inpEstop 0
        sysEstop).store "DO_SAMPLE_MIX_PUMP" = Value.vb false ∧
    dsRead (executeScan (fun _ => 1) defaultSetpoints inpEstop 0
        sysEstop).store "DO_PROVER_VLV_CMD" = Value.vb false ∧
    dsRead (executeScan (fun _ => 1) defaultSetpoints inpEstop 0
        sysEstop).store "DO_ALARM_BEACON" = Value.vb true ∧
    dsRead (executeScan (fun _ => 1) defaultSetpoints inpEstop 0
        sysEstop).store "DO_ALARM_HORN" = Value.vb true :=
  C1_estop_steady_safe_outputs (fun _ => 1) defaultSetpoints inpEstop 0
    sysEstop rfl rfl rfl rfl

/-- C4 (amended): the sampler module itself forces DO_SAMPLE_SOL off on
every cycle it executes outside RUNNING, and likewise in RUNNING when the
sample-pot high level is set; at scan level the controller dispatches the
sampler only in RUNNING and DIVERT, so every scan that finishes in DIVERT
ends with DO_SAMPLE_SOL false, while scans finishing elsewhere leave the
sampler outputs untouched. -/
theorem C4_sampler_solenoid_gating (expFn : ℚ → ℚ) (sp : Setpoints)
    (inp : Inputs) (now : ℚ) (sys : SysState) :
    (∀ state : LACTState, ∀ s : SamplerState, ∀ st : Store,
      state = LACTState.RUNNING ∨
        dsRead (samplerExecute sp now state s st).2 "DO_SAMPLE_SOL" =
          Value.vb false) ∧
    (∀ s : SamplerState, ∀ st : Store,
      (dsRead st "DI_SAMPLE_POT_HI").truthy = false ∨
        dsRead (samplerExecute sp now LACTState.RUNNING s st).2
          "DO_SAMPLE_SOL" = Value.vb false) ∧
    ((executeScan expFn sp inp now sys).sm.state ≠ LACTState.DIVERT ∨
      dsRead (executeScan expFn sp inp now sys).store "DO_SAMPLE_SOL" =
        Value.vb false) := by
  refine ⟨?_, ?_, ?_⟩
  · intro state s st
    by_cases h : state = LACTState.RUNNING
    · exact Or.inl h
    · exact Or.inr (samplerExecute_sol_notRunning sp now state s st h)
  · intro s st
    by_cases h : (dsRead st "DI_SAMPLE_POT_HI").truthy = true
    · exact Or.inr (samplerExecute_sol_potHi sp now s st h)
    · exact Or.inl (by simpa using h)
  · by_cases hd : (executeScan expFn sp inp now sys).sm.state =
      LACTState.DIVERT
    · refine Or.inr ?_
      unfold executeScan at hd ⊢
      dsimp only at hd ⊢
      rw [hd]
      simp only [reduceCtorEq, eq_self_iff_true, or_true, false_or,
        if_true, if_false]
      rw [pumpExecute_frame _ _ _ _ _ (by decide),
        divertExecute_frame _ _ _ _ (by decide)]
      exact samplerExecute_sol_notRunning _ _ _ _ _ (by decide)
    · exact Or.inl hd

/-- C4 counterexample: the scan that trips from RUNNING to E_STOP never
dispatches the sampler, so DO_SAMPLE_SOL is still energised at the end of
a cycle on which the state is no longer RUNNING. -/
theorem C4_counterexample :
    (executeScan (fun _ => 1) defaultSetpoints inpEstop 0
        sysRunning).sm.state = LACTState.E_STOP ∧
    dsRead (executeScan (fun _ => 1) defaultSetpoints inpEstop 0
        sysRunning).store "DO_SAMPLE_SOL" = Value.vb true := by
  have h := estop_trip_scan (fun _ => 1) defaultSetpoints inpEstop 0
    sysRunning (by decide) rfl rfl rfl rfl
  exact ⟨h.1, h.2.2.trans rfl⟩

/-- Witness for the amended C4 at concrete inputs: the sampler run in
E_STOP on the empty store forces the solenoid off. -/
theorem C4_sampler_solenoid_gating_witness :
    dsRead (samplerExecute defaultSetpoints 0 LACTState.E_STOP samplerInit
      store0).2 "DO_SAMPLE_SOL" = Value.vb false :=
  ((C4_sampler_solenoid_gating (fun _ => 1) defaultSetpoints inpEstop 0
      sysEstop).1 LACTState.E_STOP samplerInit store0).resolve_left
    (by decide)

end LACT
